import Mathlib

/-!
Shallow embedding of the conversation core of the VoiceAI repository
(`apps/server/src`): session store, policy-override engine, intent
detection, and the three slot-filling agents (lead, booking, menu),
together with the webhook-level turn pipeline (`asr.final` handling).

Conventions of the embedding:
* JavaScript strings are Lean `String`s (lists of characters); the regular
  expressions used by the source are modelled by bespoke scanning functions
  that mirror the concrete patterns (leftmost match, greedy character-class
  runs, case-insensitive literals) for the ASCII inputs the system handles.
* JavaScript numbers appearing in score arithmetic (`hits / total`) are
  modelled as exact non-negative rationals represented as unreduced
  numerator/denominator pairs (`Q`), compared by cross-multiplication.
  `NaN` values produced by `parseInt` on non-numeric text are modelled by
  `JNum.nan`.
* External collaborators (HubSpot, Airtable, clock, menu data, locale
  date formatting) are supplied through an explicit environment `Env`;
  their outcomes are parameters, never stubs of repository logic.
* The store ↔ in-flight-object aliasing of the source (the webhook takes
  a session object from the store, the store's `update` replaces the map
  entry with a fresh object, and the router keeps mutating the stale one)
  is modelled by threading two session values through a turn: `snap`, the
  object the router/agents hold, and `store`, the map's current value.
-/

/-! ## Character and string helpers (ASCII model of the JS operations) -/

/-- Lower-case a single ASCII character, as `String.prototype.toLowerCase`
does on ASCII input. -/
def lowerChar (c : Char) : Char :=
  if 'A' ≤ c ∧ c ≤ 'Z' then Char.ofNat (c.toNat + 32) else c

/-- Lower-case an ASCII string. -/
def lowerStr (s : String) : String := ⟨s.data.map lowerChar⟩

/-- Exact list-prefix test. -/
def isPrefList : List Char → List Char → Bool
  | [], _ => true
  | _ :: _, [] => false
  | p :: ps, h :: hs => p == h && isPrefList ps hs

/-- Does `pat` occur as a contiguous sublist of `hay`? -/
def hasSub (hay pat : List Char) : Bool :=
  match hay with
  | [] => pat.isEmpty
  | _ :: t => if isPrefList pat hay then true else hasSub t pat

/-- Model of `hay.includes(pat)` (both already in the intended case). -/
def strIncludes (hay pat : String) : Bool := hasSub hay.data pat.data

/-- Index of the first occurrence of `pat` in `hay`
(model of `String.prototype.indexOf` restricted to found/not-found). -/
def idxOfSub (hay pat : List Char) : Option Nat :=
  match hay with
  | [] => if pat.isEmpty then some 0 else none
  | _ :: t => if isPrefList pat hay then some 0 else (idxOfSub t pat).map (· + 1)

/-- Case-insensitive literal match at the head of `hay`
(`lit` is given in lower case). -/
def matchLitAt : List Char → List Char → Bool
  | [], _ => true
  | _ :: _, [] => false
  | p :: ps, h :: hs => p == lowerChar h && matchLitAt ps hs

/-- Longest run of characters satisfying `cls` at the head of a list
(greedy character-class repetition). -/
def takeClass (cls : Char → Bool) : List Char → List Char
  | [] => []
  | c :: cs => if cls c then c :: takeClass cls cs else []

/-- Model of `/lit1.*lit2/` alternation members such as `repeat.*menu`:
`a` occurs and `b` occurs after the end of its first occurrence. -/
def seqHas (hay a b : List Char) : Bool :=
  match idxOfSub hay a with
  | none => false
  | some i => hasSub (hay.drop (i + a.length)) b

/-- JS `String.prototype.trim` (ASCII whitespace). -/
def trimStr (s : String) : String :=
  ⟨(s.data.dropWhile Char.isWhitespace).reverse.dropWhile Char.isWhitespace |>.reverse⟩

/-- Numeric value of a digit list (the digits of a `(\d+)` capture). -/
def digitsToNat (ds : List Char) : Nat :=
  ds.foldl (fun n c => n * 10 + (c.toNat - 48)) 0

/-- Decimal digit characters of a natural number (auxiliary, fuelled). -/
def natDigitsAux : Nat → Nat → List Char → List Char
  | 0, _, acc => acc
  | fuel + 1, n, acc =>
    let d := Char.ofNat (n % 10 + 48)
    if n < 10 then d :: acc else natDigitsAux fuel (n / 10) (d :: acc)

/-- Decimal rendering of a natural number (model of `Number.prototype.toString`). -/
def natToStr (n : Nat) : String := ⟨natDigitsAux (n + 1) n []⟩

/-- Model of `s.padStart(2, "0")`. -/
def padStart2 (s : String) : String :=
  ⟨List.replicate (2 - s.data.length) '0' ++ s.data⟩

/-- Join a list of strings with a separator (JS `Array.prototype.join`). -/
def joinSep (sep : String) : List String → String
  | [] => ""
  | [x] => x
  | x :: y :: xs => x ++ sep ++ joinSep sep (y :: xs)

/-- Intersperse the characters of a string with spaces
(model of `email.split('').join(' ')`). -/
def spellOut (s : String) : String :=
  joinSep " " (s.data.map fun c => ⟨[c]⟩)

/-- First component of `s.split(' ')` (everything before the first space;
the whole string when there is no space). -/
def firstSpacePart (s : String) : String :=
  ⟨s.data.takeWhile (· ≠ ' ')⟩

/-- Second component of `s.split(' ')`, as an `Option` (`none` models
JavaScript `undefined` when the split has a single part). -/
def secondSpacePart (s : String) : String × Bool :=
  let rest := (s.data.dropWhile (· ≠ ' '))
  match rest with
  | [] => ("", false)
  | _ :: t => (⟨t.takeWhile (· ≠ ' ')⟩, true)

/-- Split on `':'` (model of `s.split(':')`, which never yields `[]`). -/
def splitColon (s : String) : List String :=
  let rec go : List Char → List Char → List String
    | acc, [] => [⟨acc.reverse⟩]
    | acc, c :: t => if c = ':' then ⟨acc.reverse⟩ :: go [] t else go (c :: acc) t
  go [] s.data

/-! ## JavaScript numbers that may be `NaN` -/

/-- A non-negative JavaScript number that may be `NaN` (as produced by
`parseInt` / `Number` on non-numeric text). -/
inductive JNum
  | num (n : Nat)
  | nan
deriving DecidableEq

/-- Model of `x.toString()` for a `JNum`. -/
def JNum.render : JNum → String
  | .num n => natToStr n
  | .nan => "NaN"

/-- Model of `parseInt(s)` on the strings this codebase feeds it:
a leading digit run yields its value, otherwise `NaN`. -/
def jsParseInt (s : String) : JNum :=
  let ds := takeClass Char.isDigit s.data
  if ds.isEmpty then .nan else .num (digitsToNat ds)

/-- Model of `Number(s)`: empty string is `0`, digit strings parse,
anything else is `NaN`. -/
def jsNumber (s : String) : JNum :=
  if s.data.isEmpty then .num 0
  else if s.data.all Char.isDigit then .num (digitsToNat s.data)
  else .nan

/-! ## Exact non-negative rationals for score arithmetic

The source computes `keywordHits + 2 * (hits / total)` with JavaScript
floating-point division; the embedding uses exact rationals represented as
unreduced pairs, compared by cross-multiplication, which agrees with the
real-number value of every expression the router builds. -/

/-- Unreduced non-negative fraction `n / d` (all denominators used are
lengths of non-empty keyword lists, hence positive). -/
structure Q where
  n : Nat
  d : Nat
deriving DecidableEq

/-- Embed a natural number. -/
def Q.nat (k : Nat) : Q := ⟨k, 1⟩

/-- Exact strict comparison `a < b` by cross-multiplication. -/
def Q.blt (a b : Q) : Bool := a.n * b.d < b.n * a.d

/-- Addition of fractions. -/
def Q.add (a b : Q) : Q := ⟨a.n * b.d + b.n * a.d, a.d * b.d⟩

/-- Scaling by a natural number (`confidence * 2`). -/
def Q.scale (k : Nat) (a : Q) : Q := ⟨k * a.n, a.d⟩

/-- Model of `Math.min` on two fractions (value-correct). -/
def Q.minQ (a b : Q) : Q := if Q.blt b a then b else a

/-! ## Data model (types/session.ts) -/

/-- The three intents of `IntentSchema`. -/
inductive Intent
  | lead
  | booking
  | menu
deriving DecidableEq

/-- Speaker tag of a transcript entry. -/
inductive Who
  | caller
  | agent
deriving DecidableEq

/-- One transcript entry. -/
structure TranscriptEntry where
  who : Who
  text : String
  timestamp : Nat
  confidence : Option Nat := none
deriving DecidableEq

/-- The `collected` slot record (`CollectedDataSchema`); absent JS keys are
`none`. -/
structure CollectedData where
  name : Option String := none
  email : Option String := none
  phone : Option String := none
  partySize : Option Nat := none
  dateTime : Option String := none
  useCase : Option String := none
  specialRequests : Option String := none
deriving DecidableEq

/-- CRM action types (`CRMActionSchema.type`). -/
inductive CRMType
  | hubspot_contact
  | airtable_reservation
  | hubspot_deal
deriving DecidableEq

/-- CRM action statuses. -/
inductive CRMStatus
  | pending
  | success
  | failed
deriving DecidableEq

/-- One tracked side-effect attempt; `data` is the free-form payload record,
modelled as a field/value association list. -/
structure CRMAction where
  type : CRMType
  status : CRMStatus
  timestamp : Nat
  data : List (String × String)
  error : Option String := none
  idempotencyKey : Nat
deriving DecidableEq

/-- An `ExtendedSession`. -/
structure Session where
  callId : String
  createdAt : Nat
  lastActivity : Nat
  currentIntent : Option Intent := none
  lastIntent : Option Intent := none
  collected : CollectedData := {}
  lastMenuRead : Option (List String) := none
  transcript : List TranscriptEntry := []
  crmActions : List CRMAction := []
  isActive : Bool := true
deriving DecidableEq

/-! ## Selectors (memory/selectors.ts) -/

/-- All caller transcript entries. -/
def getCallerMessages (s : Session) : List TranscriptEntry :=
  s.transcript.filter (fun e => e.who = Who.caller)

/-- Last agent transcript entry (`filter(...).slice(-1)[0]`). -/
def getLastAgentMessage (s : Session) : Option TranscriptEntry :=
  (s.transcript.filter (fun e => e.who = Who.agent)).getLast?

/-- `hasRequiredData(session, intent)`. -/
def hasRequiredData (s : Session) : Intent → Bool
  | .lead => s.collected.name.isSome && s.collected.email.isSome
  | .booking => s.collected.name.isSome && s.collected.partySize.isSome
      && s.collected.dateTime.isSome
  | .menu => true

/-- `getMissingFields(session, intent)`. -/
def getMissingFields (s : Session) : Intent → List String
  | .lead =>
    (if s.collected.name.isNone then ["name"] else []) ++
    (if s.collected.email.isNone then ["email"] else [])
  | .booking =>
    (if s.collected.name.isNone then ["name"] else []) ++
    (if s.collected.partySize.isNone then ["party size"] else []) ++
    (if s.collected.dateTime.isNone then ["date and time"] else [])
  | .menu => []

/-- Confidence keyword lists of `getIntentConfidence`. -/
def confLeadKeywords : List String :=
  ["information", "details", "learn", "tell me", "contact", "email"]

/-- Booking confidence keywords. -/
def confBookingKeywords : List String :=
  ["reservation", "table", "book", "reserve", "dinner", "lunch", "party"]

/-- Menu confidence keywords. -/
def confMenuKeywords : List String :=
  ["menu", "food", "eat", "dish", "special", "what do you have"]

/-- Number of keywords of `kws` contained in `text`. -/
def countHits (text : String) (kws : List String) : Nat :=
  (kws.filter (fun kw => strIncludes text kw)).length

/-- Per-intent conversation confidence (`getIntentConfidence`):
keyword hits over the whole lower-cased caller text, divided by the
keyword-list length and clamped by `Math.min(·, 1)`. -/
def getIntentConfidence (s : Session) : Intent → Q :=
  let callerText := joinSep " " ((getCallerMessages s).map fun e => lowerStr e.text)
  fun i =>
    let kws := match i with
      | .lead => confLeadKeywords
      | .booking => confBookingKeywords
      | .menu => confMenuKeywords
    Q.minQ ⟨countHits callerText kws, kws.length⟩ (Q.nat 1)

/-! ## Intent detection (agents/index.ts, `AgentRouter.detectIntent`) -/

/-- Router booking keywords. -/
def bookingKeywords : List String :=
  ["reservation", "reserve", "book", "table", "dinner", "lunch",
   "party", "tonight", "tomorrow", "date", "time", "seat"]

/-- Router menu keywords. -/
def menuKeywords : List String :=
  ["menu", "food", "eat", "dish", "special", "what do you have",
   "appetizer", "entree", "dessert", "drink", "wine", "price"]

/-- Router lead keywords. -/
def leadKeywords : List String :=
  ["information", "details", "tell me about", "learn more",
   "contact", "email", "call back", "interested"]

/-- Combined score of one intent for a turn: keyword-hit count on the
current utterance plus twice the conversation confidence. -/
def combinedScore (s : Session) (userInput : String) (i : Intent) : Q :=
  let input := lowerStr userInput
  let kwScore := match i with
    | .booking => countHits input bookingKeywords
    | .menu => countHits input menuKeywords
    | .lead => countHits input leadKeywords
  Q.add (Q.nat kwScore) (Q.scale 2 (getIntentConfidence s i))

/-- `AgentRouter.detectIntent`: keyword scores plus weighted confidence,
then the source's comparison cascade. -/
def detectIntent (s : Session) (userInput : String) : Intent :=
  let finalBookingScore := combinedScore s userInput .booking
  let finalMenuScore := combinedScore s userInput .menu
  let finalLeadScore := combinedScore s userInput .lead
  if Q.blt finalMenuScore finalBookingScore && Q.blt finalLeadScore finalBookingScore then
    .booking
  else if Q.blt finalLeadScore finalMenuScore then
    .menu
  else
    .lead

/-! ## Regex models for the extraction heuristics (agents/lead.ts)

Each scanning function mirrors one concrete regular expression of the
source: leftmost match, greedy character classes, case-insensitive
literals (literals are written in lower case). -/

/-- The character class `[a-zA-Z\s]` of the name patterns. -/
def nameClass (c : Char) : Bool := c.isAlpha || c.isWhitespace

/-- Leftmost match of `lit` followed by a non-empty `cls` run; returns the
greedy capture (a position where the run is empty does not match, and the
scan continues to the right, as the regex engine does). -/
def findLitClass (lit : List Char) (cls : Char → Bool) : List Char → Option (List Char)
  | [] => none
  | h :: t =>
    if matchLitAt lit (h :: t) then
      let run := takeClass cls ((h :: t).drop lit.length)
      if run.isEmpty then findLitClass lit cls t else some run
    else findLitClass lit cls t

/-- Capture of `/lit([a-zA-Z\s]+)/i` followed by `match[1].trim()`. -/
def tryNamePattern (lit : String) (userInput : String) : Option String :=
  (findLitClass lit.data nameClass userInput.data).map fun run => trimStr ⟨run⟩

/-- The name-pattern loop of the agents: first pattern in list order whose
trimmed capture passes the plausibility check wins; a failing check moves
on to the next pattern. -/
def extractNameWith (ok : String → Bool) (pats : List String) (userInput : String) :
    Option String :=
  match pats with
  | [] => none
  | p :: ps =>
    match tryNamePattern p userInput with
    | some nm => if ok nm then some nm else extractNameWith ok ps userInput
    | none => extractNameWith ok ps userInput

/-- Lead-agent name patterns. -/
def leadNamePatterns : List String :=
  ["my name is ", "i\x27m ", "this is ", "call me "]

/-- Booking-agent name patterns. -/
def bookingNamePatterns : List String :=
  ["my name is ", "i\x27m ", "this is ", "under ", "for "]

/-- `BookingAgent.isCommonWord`. -/
def isCommonWord (word : String) : Bool :=
  ["tonight", "tomorrow", "today", "people", "person", "table", "dinner", "lunch"].contains
    (lowerStr word)

/-- Length bound shared by both name extractions (`1 < length < 50`). -/
def nameLenOK (nm : String) : Bool := nm.data.length > 1 && nm.data.length < 50

/-- `LeadAgent` name extraction. -/
def extractLeadName (userInput : String) : Option String :=
  extractNameWith nameLenOK leadNamePatterns userInput

/-- `BookingAgent` name extraction (adds the common-word filter). -/
def extractBookingName (userInput : String) : Option String :=
  extractNameWith (fun nm => nameLenOK nm && !isCommonWord nm) bookingNamePatterns userInput

/-- Local-part class `[A-Za-z0-9._%+-]` of the email pattern. -/
def emailLocalChar (c : Char) : Bool :=
  c.isAlphanum || c == '.' || c == '_' || c == '%' || c == '+' || c == '-'

/-- Domain class `[A-Za-z0-9.-]`. -/
def emailDomainChar (c : Char) : Bool := c.isAlphanum || c == '.' || c == '-'

/-- Top-level-domain class: the source writes `[A-Z|a-z]{2,}`, which
literally includes the pipe character. -/
def emailTldChar (c : Char) : Bool := c.isAlpha || c == '|'

/-- Word character for the `\b` boundary. -/
def wordChar (c : Char) : Bool := c.isAlphanum || c == '_'

/-- Split at the last dot: `(before, after)`; `none` when no dot occurs. -/
def lastDotSplit (l : List Char) : Option (List Char × List Char) :=
  let rpost := l.reverse.takeWhile (· ≠ '.')
  if rpost.length = l.length then none
  else some (l.take (l.length - rpost.length - 1), rpost.reverse)

/-- Try the email pattern at a fixed position: non-empty local run, `@`,
greedy domain run whose final dot-segment is a valid TLD with a word
boundary after the run. -/
def tryEmailAt (l : List Char) : Option (List Char) :=
  let loc := takeClass emailLocalChar l
  if loc.isEmpty then none else
  match l.drop loc.length with
  | '@' :: rest =>
    let dom := takeClass emailDomainChar rest
    match lastDotSplit dom with
    | some (pre, tld) =>
      if pre.length ≥ 1 && tld.length ≥ 2 && tld.all emailTldChar
          && (match rest.drop dom.length with
              | [] => true
              | c :: _ => !wordChar c) then
        some (loc ++ '@' :: dom)
      else none
    | none => none
  | _ => none

/-- Leftmost email match, enforcing the leading `\b` via the previous
character. -/
def findEmail : Option Char → List Char → Option (List Char)
  | _, [] => none
  | prev, c :: t =>
    let boundaryOK := match prev with
      | some p => !wordChar p
      | none => true
    match (if boundaryOK then tryEmailAt (c :: t) else none) with
    | some m => some m
    | none => findEmail (some c) t

/-- `emailMatch[0]` of the lead email pattern. -/
def extractEmail (userInput : String) : Option String :=
  (findEmail none userInput.data).map (⟨·⟩)

/-- Separator class `[-.\s]` of the phone pattern. -/
def sepCls (c : Char) : Bool := c == '-' || c == '.' || c.isWhitespace

/-- Candidates of an optional single character, greedy alternative first. -/
def optTake (p : Char → Bool) (l : List Char) : List (List Char × List Char) :=
  match l with
  | c :: t => if p c then [([c], t), ([], c :: t)] else [([], c :: t)]
  | [] => [([], [])]

/-- Exactly `k` digits. -/
def takeDigits : Nat → List Char → Option (List Char × List Char)
  | 0, l => some ([], l)
  | _ + 1, [] => none
  | k + 1, c :: t =>
    if c.isDigit then (takeDigits k t).map (fun p => (c :: p.1, p.2)) else none

/-- Candidates of the optional group `(\+?1[-.\s]?)?`, in the regex
engine's backtracking order. -/
def phoneGroup1 (l : List Char) : List (List Char × List Char) :=
  let withPlus : List (List Char × List Char) :=
    match l with
    | '+' :: '1' :: t => (optTake sepCls t).map (fun p => ('+' :: '1' :: p.1, p.2))
    | _ => []
  let noPlus : List (List Char × List Char) :=
    match l with
    | '1' :: t => (optTake sepCls t).map (fun p => ('1' :: p.1, p.2))
    | _ => []
  withPlus ++ noPlus ++ [([], l)]

/-- The phone pattern
`(\+?1[-.\s]?)?\(?([0-9]{3})\)?[-.\s]?([0-9]{3})[-.\s]?([0-9]{4})`
at a fixed position, returning `match[0]`. -/
def tryPhoneAt (l : List Char) : Option (List Char) :=
  (phoneGroup1 l).findSome? fun g1 =>
  (optTake (· == '(') g1.2).findSome? fun op =>
  (takeDigits 3 op.2).bind fun d1 =>
  (optTake (· == ')') d1.2).findSome? fun cp =>
  (optTake sepCls cp.2).findSome? fun s1 =>
  (takeDigits 3 s1.2).bind fun d2 =>
  (optTake sepCls d2.2).findSome? fun s2 =>
  (takeDigits 4 s2.2).map fun d3 =>
  g1.1 ++ op.1 ++ d1.1 ++ cp.1 ++ s1.1 ++ d2.1 ++ s2.1 ++ d3.1

/-- Leftmost phone match. -/
def findPhone : List Char → Option (List Char)
  | [] => none
  | c :: t =>
    match tryPhoneAt (c :: t) with
    | some m => some m
    | none => findPhone t

/-- `phoneMatch[0]` of the phone pattern. -/
def extractPhone (userInput : String) : Option String :=
  (findPhone userInput.data).map (⟨·⟩)

/-- Leftmost match of `lit1(\d+)lit2` (case-insensitive literals), returning
the numeric capture; the digit run is greedy and all second literals of the
source start with a non-digit, so greediness is exact. -/
def findNumBetween (lit1 lit2 : String) : List Char → Option Nat
  | [] => none
  | h :: t =>
    (if matchLitAt lit1.data (h :: t) then
      let rest := (h :: t).drop lit1.data.length
      let ds := takeClass Char.isDigit rest
      if ds.isEmpty then none
      else if matchLitAt lit2.data (rest.drop ds.length) then some (digitsToNat ds)
      else none
    else none).orElse fun _ => findNumBetween lit1 lit2 t

/-- The party-size patterns of `BookingAgent.extractInformation`, as
(literal-before, literal-after) pairs around the `(\d+)` capture. -/
def partySizePatterns : List (String × String) :=
  [("for ", " people"), ("", " people"), ("party of ", ""),
   ("table for ", ""), ("", " person")]

/-- The party-size loop: first pattern whose captured size satisfies
`0 < size ≤ 20` wins; a failing range check moves to the next pattern. -/
def extractPartySize (userInput : String) : Option Nat :=
  let rec go : List (String × String) → Option Nat
    | [] => none
    | p :: ps =>
      match findNumBetween p.1 p.2 userInput.data with
      | some size => if size > 0 && size ≤ 20 then some size else go ps
      | none => go ps
  go partySizePatterns

/-- `(am|pm)` (case-insensitive); `true` means pm. -/
def readAmPm (l : List Char) : Option Bool :=
  match l with
  | a :: b :: _ =>
    if lowerChar a == 'a' && lowerChar b == 'm' then some false
    else if lowerChar a == 'p' && lowerChar b == 'm' then some true
    else none
  | _ => none

/-- Drop the `\s*` run. -/
def skipWs (l : List Char) : List Char := l.dropWhile Char.isWhitespace

/-- Tail of `/(\d{1,2}):(\d{2})\s*(am|pm)/i` after the hour digits. -/
def hmpTail (h : Nat) : List Char → Option (Nat × Nat × Bool)
  | ':' :: d1 :: d2 :: rest =>
    if d1.isDigit && d2.isDigit then
      (readAmPm (skipWs rest)).map fun pm => (h, digitsToNat [d1, d2], pm)
    else none
  | _ => none

/-- `/(\d{1,2}):(\d{2})\s*(am|pm)/i` at a fixed position, trying the
two-digit hour before backtracking to one digit. -/
def tryHmpAt : List Char → Option (Nat × Nat × Bool)
  | c1 :: c2 :: rest =>
    if c1.isDigit then
      if c2.isDigit then
        match hmpTail (digitsToNat [c1, c2]) rest with
        | some r => some r
        | none => hmpTail (digitsToNat [c1]) (c2 :: rest)
      else hmpTail (digitsToNat [c1]) (c2 :: rest)
    else none
  | _ => none

/-- Leftmost match of the first time pattern. -/
def matchHmp : List Char → Option (Nat × Nat × Bool)
  | [] => none
  | c :: t =>
    match tryHmpAt (c :: t) with
    | some r => some r
    | none => matchHmp t

/-- Tail of `/(\d{1,2})\s*(am|pm)/i` after the hour digits (only the hour
is numeric; the second capture is the period text). -/
def hapTail (h : Nat) (l : List Char) : Option Nat :=
  (readAmPm (skipWs l)).map fun _ => h

/-- `/(\d{1,2})\s*(am|pm)/i` at a fixed position. -/
def tryHapAt : List Char → Option Nat
  | c1 :: c2 :: rest =>
    if c1.isDigit then
      if c2.isDigit then
        match hapTail (digitsToNat [c1, c2]) rest with
        | some r => some r
        | none => hapTail (digitsToNat [c1]) (c2 :: rest)
      else hapTail (digitsToNat [c1]) (c2 :: rest)
    else none
  | _ => none

/-- Leftmost match of the second time pattern. -/
def matchHap : List Char → Option Nat
  | [] => none
  | c :: t =>
    match tryHapAt (c :: t) with
    | some r => some r
    | none => matchHap t

/-- Tail of `/(\d{1,2}):(\d{2})/` after the hour digits. -/
def hmTail (h : Nat) : List Char → Option (Nat × Nat)
  | ':' :: d1 :: d2 :: _ =>
    if d1.isDigit && d2.isDigit then some (h, digitsToNat [d1, d2]) else none
  | _ => none

/-- `/(\d{1,2}):(\d{2})/` at a fixed position. -/
def tryHmAt : List Char → Option (Nat × Nat)
  | c1 :: c2 :: rest =>
    if c1.isDigit then
      if c2.isDigit then
        match hmTail (digitsToNat [c1, c2]) rest with
        | some r => some r
        | none => hmTail (digitsToNat [c1]) (c2 :: rest)
      else hmTail (digitsToNat [c1]) (c2 :: rest)
    else none
  | _ => none

/-- Leftmost match of the third time pattern. -/
def matchHm : List Char → Option (Nat × Nat)
  | [] => none
  | c :: t =>
    match tryHmAt (c :: t) with
    | some r => some r
    | none => matchHm t

/-- `BookingAgent.extractTime`. The patterns are tried in source order.
For the second pattern, `match[2]` is the period text, so
`parseInt(match[2])` is `NaN` and `match[3]` is `undefined`: the minutes
render as `"NaN"` and no am/pm adjustment happens. -/
def extractTime (userInput : String) : Option String :=
  match matchHmp userInput.data with
  | some (h, m, pm) =>
    let hours := if pm && h < 12 then h + 12 else if !pm && h == 12 then 0 else h
    some (padStart2 (natToStr hours) ++ ":" ++ padStart2 (natToStr m))
  | none =>
    match matchHap userInput.data with
    | some h => some (padStart2 (natToStr h) ++ ":" ++ padStart2 (JNum.render JNum.nan))
    | none =>
      match matchHm userInput.data with
      | some (h, m) => some (padStart2 (natToStr h) ++ ":" ++ padStart2 (natToStr m))
      | none => none

/-- `'/'`-date tail: `/` then at least one digit. -/
def slashTail : List Char → Bool
  | '/' :: d :: _ => d.isDigit
  | _ => false

/-- `/(\d{1,2})\/(\d{1,2})(?:\/(\d{2,4}))?/` at a fixed position (existence
only; the optional year group does not affect whether a match exists). -/
def trySlashAt : List Char → Bool
  | c1 :: c2 :: rest =>
    c1.isDigit && (if c2.isDigit then slashTail rest else slashTail (c2 :: rest))
  | _ => false

/-- Does the slash-date pattern match anywhere? -/
def hasSlashDate : List Char → Bool
  | [] => false
  | c :: t => trySlashAt (c :: t) || hasSlashDate t

/-- Month names of the month-day pattern. -/
def monthNames : List String :=
  ["january", "february", "march", "april", "may", "june", "july",
   "august", "september", "october", "november", "december"]

/-- `/lit\s+(\d{1,2})/i` matches anywhere. -/
def litSpacesDigit (lit : List Char) : List Char → Bool
  | [] => false
  | h :: t =>
    (matchLitAt lit (h :: t) &&
      (let rest := (h :: t).drop lit.length
       let ws := takeClass Char.isWhitespace rest
       !ws.isEmpty &&
         (match rest.drop ws.length with
          | d :: _ => d.isDigit
          | [] => false))) ||
    litSpacesDigit lit t

/-- Does the month-day pattern match anywhere? -/
def hasMonthDay (l : List Char) : Bool :=
  monthNames.any fun m => litSpacesDigit m.data l

/-- Keywords of `BookingAgent.extractSpecialRequests`. -/
def requestKeywords : List String :=
  ["birthday", "anniversary", "celebration", "window", "quiet",
   "allergy", "vegetarian", "vegan", "gluten", "wheelchair"]

/-- `BookingAgent.extractSpecialRequests`: when any request keyword occurs,
the full utterance is returned to preserve context. -/
def extractSpecialRequests (userInput : String) : Option String :=
  let input := lowerStr userInput
  let foundRequests := requestKeywords.filter fun kw => strIncludes input kw
  if foundRequests.length > 0 then some userInput else none

/-- Keywords of the lead use-case extraction. -/
def useCaseKeywords : List String :=
  ["interested in", "looking for", "want to know about", "need information about",
   "thinking about", "considering", "planning"]

/-- Lead use-case extraction: first keyword contained in the lower-cased
input; the text after it (from the original input) is kept when
`5 < length < 200`, otherwise the loop moves to the next keyword. -/
def extractUseCase (userInput : String) : Option String :=
  let input := lowerStr userInput
  let rec go : List String → Option String
    | [] => none
    | kw :: kws =>
      if strIncludes input kw then
        match idxOfSub input.data kw.data with
        | some idx =>
          let useCase := trimStr ⟨userInput.data.drop (idx + kw.data.length)⟩
          if useCase.data.length > 5 && useCase.data.length < 200 then some useCase
          else go kws
        | none => go kws
      else go kws
  go useCaseKeywords

/-- `LeadAgent.isNewRequest`. -/
def isNewRequest (userInput : String) : Bool :=
  let input := lowerStr userInput
  ["also", "another", "else", "different", "other", "more",
   "reservation", "menu", "book", "table"].any fun kw => strIncludes input kw

/-- `BookingAgent.isConfirmation`. -/
def isConfirmation (userInput : String) : Bool :=
  let input := lowerStr userInput
  ["yes", "yeah", "yep", "correct", "right", "confirm", "book it"].any fun kw =>
    strIncludes input kw

/-- `BookingAgent.isModificationRequest`. -/
def isModificationRequest (userInput : String) : Bool :=
  let input := lowerStr userInput
  ["change", "modify", "different", "actually", "wait"].any fun kw =>
    strIncludes input kw

/-! ## External collaborators (environment) -/

/-- One availability time slot (types/services.ts `TimeSlot`). -/
structure TimeSlot where
  time : String
  available : Bool
  maxPartySize : Nat
  remainingSlots : Nat
deriving DecidableEq

/-- Availability of one day (`DayAvailability`). -/
structure DayAvailability where
  date : String
  slots : List TimeSlot
  isOpen : Bool
  specialNotes : Option String := none
deriving DecidableEq

/-- One menu item as the menu agent consumes it: `Name`, `Price` (empty
string when absent, mirroring JS truthiness on the field) and
`Dietary Notes`. -/
structure MenuItem where
  name : String
  price : String
  dietaryNotes : String
deriving DecidableEq

/-- Outcomes and data of the external collaborators for one turn: the
clock, date rendering, CRM call results (`Except` errors model thrown
exceptions carrying their message), availability data and menu data.
Only results are modelled; the collaborators' own state changes (such as
`reserveSlot` decrementing a counter) live outside the session. -/
structure Env where
  now : Nat := 0
  todayStr : String := "2026-01-01"
  tomorrowStr : String := "2026-01-02"
  localeDate : String → String := fun _ => "Friday, January 2"
  hubspotResult : Except String String := .ok "contact-1"
  airtableResult : Except String String := .ok "rec-1"
  availability : String → Option DayAvailability := fun _ => none
  dateSeq : Nat → String := fun _ => "2026-01-01"
  menuCategories : List String := []
  todaysSpecials : List MenuItem := []
  availableItems : List MenuItem := []
  itemsByCategory : String → List MenuItem := fun _ => []
  specialsForVoice : String := "Our specials today."
  menuOverviewForVoice : String := "Our menu overview."
  categoryForVoice : String → String := fun _ => "Category items."
  formatMenuForVoice : List MenuItem → Bool → String := fun _ _ => "Items."

/-- Default environment used for concrete runs. -/
def defaultEnv : Env := {}

/-! ## Availability state (state/availability.ts) -/

/-- `getAvailableSlots(date, partySize)`. -/
def getAvailableSlots (env : Env) (date : String) (partySize : Nat) : List TimeSlot :=
  match env.availability date with
  | none => []
  | some day =>
    if !day.isOpen then []
    else day.slots.filter fun slot =>
      slot.available && slot.remainingSlots > 0 && slot.maxPartySize ≥ partySize

/-- `isTimeSlotAvailable(date, time, partySize)`. -/
def isTimeSlotAvailable (env : Env) (date time : String) (partySize : Nat) : Bool :=
  (getAvailableSlots env date partySize).any fun slot => slot.time == time

/-- Return value of `reserveSlot(date, time, partySize, data)`: whether a
matching slot exists (`findIndex !== -1`); the slot-counter mutation is a
collaborator state change outside the session. -/
def reserveSlotOk (env : Env) (date time : String) (partySize : Nat) : Bool :=
  match env.availability date with
  | none => false
  | some day =>
    day.slots.any fun slot =>
      slot.time == time && slot.available && slot.remainingSlots > 0 &&
        slot.maxPartySize ≥ partySize

/-- `getNextAvailableSlots(partySize, maxDays)`: accumulate day by day,
stop once ten results exist, return the first ten. -/
def getNextAvailableSlots (env : Env) (partySize : Nat) (maxDays : Nat) :
    List (String × String) :=
  let rec go : Nat → Nat → List (String × String) → List (String × String)
    | _, 0, acc => acc
    | i, fuel + 1, acc =>
      let dateStr := env.dateSeq i
      let acc := acc ++ (getAvailableSlots env dateStr partySize).map fun s => (dateStr, s.time)
      if acc.length ≥ 10 then acc else go (i + 1) fuel acc
  (go 0 maxDays []).take 10

/-- Hour of a slot time: `parseInt(slot.time.split(':')[0])`. -/
def slotHour (time : String) : JNum :=
  jsParseInt ((splitColon time).getD 0 "")

/-- `x < k` on a JS number (`NaN` compares false). -/
def JNum.ltNat : JNum → Nat → Bool
  | .num n, k => n < k
  | .nan, _ => false

/-- `x ≥ k` on a JS number (`NaN` compares false). -/
def JNum.geNat : JNum → Nat → Bool
  | .num n, k => n ≥ k
  | .nan, _ => false

/-- Twelve-hour rendering of a `"HH:MM"` time. Models both
`AvailabilityState.formatTimeForVoice` and
`BookingAgent.formatTimeForSpeech`, whose bodies are identical:
`const [hours, minutes] = time.split(':').map(Number); ...`.
When the split has a single part, `minutes` is `undefined` and
`minutes.toString()` raises a `TypeError`, modelled as `.error`. -/
def formatTimeTwelveHour (time : String) : Except Unit String :=
  match (splitColon time).map jsNumber with
  | hours :: minutes :: _ =>
    let period := if hours.geNat 12 then "PM" else "AM"
    let displayHours := match hours with
      | .num 0 => natToStr 12
      | .num n => if n > 12 then natToStr (n - 12) else natToStr n
      | .nan => "NaN"
    let displayMinutes := match minutes with
      | .num 0 => ""
      | m => ":" ++ padStart2 (JNum.render m)
    .ok (displayHours ++ displayMinutes ++ " " ++ period)
  | _ => .error ()

/-- Spoken date. Models both `AvailabilityState.formatDateForVoice` and
`BookingAgent.formatDateForSpeech` (identical bodies): today, tomorrow, or
the locale rendering. -/
def formatDateSpoken (env : Env) (date : String) : String :=
  if date = env.todayStr then "today"
  else if date = env.tomorrowStr then "tomorrow"
  else env.localeDate date

/-- `formatTimesForVoice(slots)`; an empty list renders the JS
`", and undefined"` artifact of `times[times.length - 1]`. -/
def formatTimesForVoice (slots : List TimeSlot) : Except Unit String := do
  let times ← slots.mapM fun s => formatTimeTwelveHour s.time
  match times with
  | [t] => pure t
  | [a, b] => pure (a ++ " and " ++ b)
  | [] => pure ", and undefined"
  | ts => pure (joinSep ", " ts.dropLast ++ ", and " ++ (ts.getLast?.getD "undefined"))

/-- `AvailabilityState.formatAvailabilityForVoice(date, partySize)`. -/
def formatAvailabilityForVoice (env : Env) (date : String) (partySize : Nat) :
    Except Unit String :=
  match env.availability date with
  | none => .ok "I don\x27t have availability information for that date."
  | some day =>
    if !day.isOpen then
      .ok ((day.specialNotes.getD "We are closed") ++ " on that date.")
    else
      let availableSlots := getAvailableSlots env date partySize
      if availableSlots.isEmpty then
        match getNextAvailableSlots env partySize 3 with
        | [] =>
          .ok ("Unfortunately, we don\x27t have availability for " ++ natToStr partySize ++
            " people on that date.")
        | alt :: _ => do
          let altTime ← formatTimeTwelveHour alt.2
          .ok ("Unfortunately, we don\x27t have availability for " ++ natToStr partySize ++
            " people on that date. However, I can offer you " ++ altTime ++ " on " ++
            formatDateSpoken env alt.1 ++ ". Would that work?")
      else
        let lunchSlots := availableSlots.filter fun s => (slotHour s.time).ltNat 15
        let dinnerSlots := availableSlots.filter fun s => (slotHour s.time).geNat 15
        let response := "For " ++ natToStr partySize ++ " people on " ++
          formatDateSpoken env date ++ ", "
        if !lunchSlots.isEmpty && !dinnerSlots.isEmpty then do
          let l ← formatTimesForVoice (lunchSlots.take 3)
          let d ← formatTimesForVoice (dinnerSlots.take 3)
          .ok (response ++ "I have both lunch and dinner availability. " ++
            "For lunch: " ++ l ++ ". " ++ "For dinner: " ++ d ++ ".")
        else if !lunchSlots.isEmpty then do
          let l ← formatTimesForVoice (lunchSlots.take 5)
          .ok (response ++ "I have lunch availability at: " ++ l ++ ".")
        else if !dinnerSlots.isEmpty then do
          let d ← formatTimesForVoice (dinnerSlots.take 5)
          .ok (response ++ "I have dinner availability at: " ++ d ++ ".")
        else
          .ok response

/-! ## Session store (memory/session-store.ts)

The store holds one object per call id; every `update` builds a fresh
object `{...session, ...updates, lastActivity: Date.now()}` and replaces
the map entry. The operations below act on the store's current object for
the call being processed. -/

/-- A `Partial<ExtendedSession>` as used by the store's `update`. -/
structure SessionPatch where
  collected : Option CollectedData := none
  transcript : Option (List TranscriptEntry) := none
  crmActions : Option (List CRMAction) := none
  lastMenuRead : Option (List String) := none
  isActive : Option Bool := none

/-- `SessionStore.create(callId, metadata)`. -/
def SessionStore.create (callId : String) (now : Nat) : Session :=
  { callId := callId, createdAt := now, lastActivity := now }

/-- `SessionStore.update`: merge the patch and bump `lastActivity`. -/
def SessionStore.update (now : Nat) (s : Session) (p : SessionPatch) : Session :=
  { s with
    collected := p.collected.getD s.collected
    transcript := p.transcript.getD s.transcript
    crmActions := p.crmActions.getD s.crmActions
    lastMenuRead := p.lastMenuRead <|> s.lastMenuRead
    isActive := p.isActive.getD s.isActive
    lastActivity := now }

/-- A `Partial<CollectedData>`. -/
structure CollectedPatch where
  name : Option String := none
  email : Option String := none
  phone : Option String := none
  partySize : Option Nat := none
  dateTime : Option String := none
  useCase : Option String := none
  specialRequests : Option String := none

/-- The spread `{...session.collected, ...data}`: fields present in the
patch overwrite, all others stay. -/
def mergeCollected (old : CollectedData) (p : CollectedPatch) : CollectedData :=
  { name := p.name <|> old.name
    email := p.email <|> old.email
    phone := p.phone <|> old.phone
    partySize := p.partySize <|> old.partySize
    dateTime := p.dateTime <|> old.dateTime
    useCase := p.useCase <|> old.useCase
    specialRequests := p.specialRequests <|> old.specialRequests }

/-- `SessionStore.updateCollected`. -/
def SessionStore.updateCollected (now : Nat) (s : Session) (p : CollectedPatch) : Session :=
  SessionStore.update now s { collected := some (mergeCollected s.collected p) }

/-- `SessionStore.addTranscript`. -/
def SessionStore.addTranscript (now : Nat) (s : Session) (e : TranscriptEntry) : Session :=
  SessionStore.update now s { transcript := some (s.transcript ++ [e]) }

/-- `SessionStore.addCRMAction`. -/
def SessionStore.addCRMAction (now : Nat) (s : Session) (a : CRMAction) : Session :=
  SessionStore.update now s { crmActions := some (s.crmActions ++ [a]) }

/-- A `Partial<CRMAction>`. -/
structure CRMUpdate where
  status : Option CRMStatus := none
  data : Option (List (String × String)) := none
  error : Option String := none

/-- The spread `{...action, ...updates}`. -/
def applyCRMUpdate (a : CRMAction) (u : CRMUpdate) : CRMAction :=
  { a with
    status := u.status.getD a.status
    data := u.data.getD a.data
    error := u.error <|> a.error }

/-- Replace the element at an index (identity when out of range). -/
def listModifyAt (f : α → α) : Nat → List α → List α
  | _, [] => []
  | 0, x :: xs => f x :: xs
  | n + 1, x :: xs => x :: listModifyAt f n xs

/-- Index of the first element satisfying the predicate
(model of `Array.prototype.findIndex`, with `none` for `-1`). -/
def jsFindIndex (p : α → Bool) : List α → Option Nat
  | [] => none
  | x :: xs => if p x then some 0 else (jsFindIndex p xs).map (· + 1)

/-- `SessionStore.updateCRMAction(callId, idempotencyKey, updates)`: find
the first action with the key; when none exists, log a warning and return
the session unchanged (no `update`, no `lastActivity` bump). -/
def SessionStore.updateCRMAction (now : Nat) (s : Session) (idempotencyKey : Nat)
    (updates : CRMUpdate) : Session :=
  match jsFindIndex (fun a => a.idempotencyKey == idempotencyKey) s.crmActions with
  | none => s
  | some i =>
    SessionStore.update now s
      { crmActions := some (listModifyAt (applyCRMUpdate · updates) i s.crmActions) }

/-! ## Policy override engine (llm/policy/overrides.ts) -/

/-- A rule trigger: a literal (tested against the trimmed, lower-cased
input) or a regular expression (tested against the raw input); regex
triggers are modelled as predicates. -/
inductive Trig
  | str (s : String)
  | regex (test : String → Bool)

/-- One policy override rule. The handler models
`(session, userInput) => string | null` wrapped in `Except` so that a
thrown handler exception is representable. -/
structure PolicyOverride where
  trigger : Trig
  priority : Nat
  handler : Session → String → Except Unit (Option String)
  description : String

/-- Trigger evaluation of `checkPolicyOverrides`. -/
def trigMatches (t : Trig) (cleanInput userInput : String) : Bool :=
  match t with
  | .str s => strIncludes cleanInput (lowerStr s)
  | .regex f => f userInput

/-- Model of an `/a|b|c/i.test(input)` trigger. -/
def anyLowerContains (subs : List String) (userInput : String) : Bool :=
  subs.any fun sub => strIncludes (lowerStr userInput) sub

/-- The evaluation loop of `checkPolicyOverrides` over the sorted rules:
first matching rule whose handler returns a truthy (non-null, non-empty)
response wins; a throwing handler is logged and skipped. -/
def runOverrides : List PolicyOverride → Session → String → String → Option String
  | [], _, _, _ => none
  | o :: os, s, clean, raw =>
    if trigMatches o.trigger clean raw then
      match o.handler s raw with
      | .ok (some response) =>
        if response ≠ "" then some response else runOverrides os s clean raw
      | .ok none => runOverrides os s clean raw
      | .error _ => runOverrides os s clean raw
    else runOverrides os s clean raw

/-- Stable insertion for the descending-priority sort. -/
def insertDesc (r : PolicyOverride) : List PolicyOverride → List PolicyOverride
  | [] => [r]
  | x :: xs => if r.priority ≥ x.priority then r :: x :: xs else x :: insertDesc r xs

/-- The stable sort `[...POLICY_OVERRIDES].sort((a, b) => b.priority - a.priority)`
(`Array.prototype.sort` is stable). -/
def sortByPriorityDesc : List PolicyOverride → List PolicyOverride
  | [] => []
  | x :: xs => insertDesc x (sortByPriorityDesc xs)

/-- `checkPolicyOverrides` over an arbitrary rule table. -/
def checkPolicyOverridesWith (rules : List PolicyOverride) (s : Session)
    (userInput : String) : Option String :=
  let cleanInput := lowerStr (trimStr userInput)
  runOverrides (sortByPriorityDesc rules) s cleanInput userInput

/-- The built-in rule table `POLICY_OVERRIDES`, in source order. -/
def POLICY_OVERRIDES : List PolicyOverride :=
  [ { trigger := .regex (anyLowerContains ["not available", "closed", "unavailable"])
      priority := 10
      description := "Handle unavailability requests"
      handler := fun _ userInput => .ok (some (
        if strIncludes (lowerStr userInput) "time" || strIncludes (lowerStr userInput) "when" then
          "I understand you\x27re asking about availability. Let me check what options I have for you. What date and time were you hoping for?"
        else
          "I understand that time doesn\x27t work. Let me see what other options I can offer you.")) }
  , { trigger := .regex (anyLowerContains ["repeat", "say that again", "didn\x27t catch", "didn\x27t hear"])
      priority := 9
      description := "Handle repeat requests"
      handler := fun s _ => .ok (some (
        match s.lastMenuRead with
        | some (m :: ms) => "Of course! Let me repeat that. " ++ joinSep ". " (m :: ms)
        | _ =>
          match getLastAgentMessage s with
          | some e => "Sure, let me repeat that. " ++ e.text
          | none => "I\x27m sorry, let me start over. How can I help you today?")) }
  , { trigger := .regex (anyLowerContains ["speak slower", "slow down", "too fast"])
      priority := 8
      description := "Handle requests to speak slower"
      handler := fun _ _ => .ok (some
        "Of course, I\x27ll speak more slowly. Let me repeat that information at a more comfortable pace.") }
  , { trigger := .regex (anyLowerContains ["speak faster", "speed up", "too slow"])
      priority := 8
      description := "Handle requests to speak faster"
      handler := fun _ _ => .ok (some
        "Sure, I\x27ll pick up the pace. Let me continue with the information you need.") }
  , { trigger := .regex (anyLowerContains ["spell", "spelling", "letters"])
      priority := 7
      description := "Handle spelling requests"
      handler := fun s _ => .ok (some (
        match s.collected.email with
        | some email =>
          "Sure! Your email address is spelled: " ++ spellOut email ++ ". Did I get that right?"
        | none => "What would you like me to spell for you?")) }
  , { trigger := .regex (fun u =>
        seqHas (lowerStr u).data "repeat".data "menu".data ||
        seqHas (lowerStr u).data "menu".data "again".data ||
        seqHas (lowerStr u).data "last".data "menu".data)
      priority := 6
      description := "Handle menu repeat requests"
      handler := fun s _ => .ok (some (
        match s.lastMenuRead with
        | some (m :: ms) => "Absolutely! Here are those menu items again: " ++ joinSep ". " (m :: ms)
        | _ => "I haven\x27t shared any specific menu items yet. What would you like to hear about?")) }
  , { trigger := .regex (anyLowerContains ["what", "huh", "excuse me", "pardon"])
      priority := 5
      description := "Handle clarification requests"
      handler := fun _ _ => .ok (some
        "I\x27m sorry, let me clarify. What specific information can I help you with?") }
  , { trigger := .regex (anyLowerContains ["human", "person", "manager", "speak to someone"])
      priority := 9
      description := "Handle requests to speak with a human"
      handler := fun _ _ => .ok (some
        "I understand you\x27d like to speak with someone from our team. Let me get your contact information and have someone call you back within the hour. What\x27s the best number to reach you?") }
  , { trigger := .regex (anyLowerContains ["problem", "issue", "complaint", "wrong", "mistake"])
      priority := 8
      description := "Handle complaints or problems"
      handler := fun _ _ => .ok (some
        "I\x27m sorry to hear there\x27s an issue. I want to make sure we take care of this properly. Can you tell me more about what happened?") }
  , { trigger := .regex (anyLowerContains ["emergency", "urgent", "asap", "right now"])
      priority := 10
      description := "Handle urgent requests"
      handler := fun _ _ => .ok (some
        "I understand this is urgent. Let me help you right away. What do you need assistance with?") }
  , { trigger := .regex (anyLowerContains ["cancel", "remove", "delete", "don\x27t want"])
      priority := 7
      description := "Handle cancellation requests"
      handler := fun s _ => .ok (some (
        if s.collected.name.isSome || s.collected.email.isSome then
          "I understand you\x27d like to cancel. Let me help you with that. Can you provide me with your reservation details or contact information?"
        else
          "What would you like to cancel? I\x27m here to help.")) }
  ]

/-- `checkPolicyOverrides(session, userInput)` over the built-in table. -/
def checkPolicyOverrides (s : Session) (userInput : String) : Option String :=
  checkPolicyOverridesWith POLICY_OVERRIDES s userInput

/-! ## Lead agent (agents/lead.ts, class `LeadAgent`)

Agents hold the in-flight session object (`snap`) while their store writes
produce fresh objects in the store (`store`): reads come from `snap`,
writes accumulate on `store`. -/

/-- Render a possibly-undefined string into a template
(JS interpolates `undefined`). -/
def jsStrOpt (o : Option String) : String := o.getD "undefined"

/-- `LeadAgent.extractInformation`. The emptiness guards model the JS
truthiness checks `!session.collected.x`; every stored value is a
non-empty string, so absence and falsiness coincide. -/
def LeadAgent.extractInformation (now : Nat) (snap store : Session) (userInput : String) :
    Session :=
  let store :=
    if snap.collected.name.isNone then
      match extractLeadName userInput with
      | some name => SessionStore.updateCollected now store { name := some name }
      | none => store
    else store
  let store :=
    if snap.collected.email.isNone then
      match extractEmail userInput with
      | some email => SessionStore.updateCollected now store { email := some email }
      | none => store
    else store
  let store :=
    if snap.collected.phone.isNone then
      match extractPhone userInput with
      | some phone => SessionStore.updateCollected now store { phone := some phone }
      | none => store
    else store
  if snap.collected.useCase.isNone then
    match extractUseCase userInput with
    | some useCase => SessionStore.updateCollected now store { useCase := some useCase }
    | none => store
  else store

/-- `LeadAgent.generateConfirmationResponse`. -/
def LeadAgent.generateConfirmationResponse (snap : Session) : String :=
  match snap.collected.name, snap.collected.email with
  | some name, some email =>
    "Perfect! Let me confirm I have your information correct. Your name is " ++ name ++
      " and your email is " ++ email ++ ". That\x27s " ++ spellOut email ++ ". Is that right?"
  | _, _ => "Let me make sure I have everything correct. Can you confirm your details for me?"

/-- `LeadAgent.generateResponse`. -/
def LeadAgent.generateResponse (snap : Session) (userInput : String) : String :=
  let missing := getMissingFields snap .lead
  if snap.transcript.length ≤ 1 then
    "Hi there! Thanks for calling. I\x27d love to help you with whatever you need. What can I do for you today?"
  else if missing.contains "name" then
    if strIncludes (lowerStr userInput) "name" then
      "Great! And what\x27s your name?"
    else
      "Perfect! I\x27d be happy to help with that. Can I get your name first?"
  else if missing.contains "email" then
    match snap.collected.name with
    | some name => "Thanks " ++ name ++ "! What\x27s the best email address to reach you at?"
    | none => "And what\x27s the best email address to reach you at?"
  else if snap.collected.useCase.isNone then
    "Excellent! Can you tell me a bit more about what you\x27re interested in or what brought you to call us today?"
  else
    LeadAgent.generateConfirmationResponse snap

/-- `LeadAgent.generateFinalResponse`. -/
def LeadAgent.generateFinalResponse (snap : Session) : String :=
  let base := "Wonderful" ++
    (match snap.collected.name with
     | some name => ", " ++ name
     | none => "") ++ "! I\x27ve got your information."
  let mid := match snap.collected.useCase with
    | some useCase =>
      " Someone from our team will reach out to you about " ++ useCase ++ " within 24 hours."
    | none => " Someone from our team will reach out to you within 24 hours."
  base ++ mid ++ " Is there anything else I can help you with today?"

/-- `LeadAgent.handleCompleteLead`: duplicate-suppression on an existing
successful contact action, then pending-action creation, external upsert
(`env.hubspotResult`), and the success/failure status update. The lookups
feeding the status update read the agent's snapshot, the status update
itself reads the store, as in the source. `k` is the next fresh
idempotency key (model of `uuidv4()`). -/
def LeadAgent.handleCompleteLead (env : Env) (snap store : Session) (k : Nat)
    (userInput : String) : Session × Nat × String :=
  let existingContact := snap.crmActions.find? fun a =>
    a.type == CRMType.hubspot_contact && a.status == CRMStatus.success
  let next : Session × Nat :=
    match existingContact, snap.collected.name, snap.collected.email with
    | none, some name, some email =>
      let idempotencyKey := k
      let store := SessionStore.addCRMAction env.now store
        { type := .hubspot_contact
          status := .pending
          timestamp := env.now
          data := [("name", name), ("email", email),
                   ("phone", jsStrOpt snap.collected.phone),
                   ("useCase", jsStrOpt snap.collected.useCase)]
          idempotencyKey := idempotencyKey }
      match env.hubspotResult with
      | .ok contactId =>
        let prior := (snap.crmActions.find? fun a => a.idempotencyKey == idempotencyKey).map (·.data)
        let store := SessionStore.updateCRMAction env.now store idempotencyKey
          { status := some .success
            data := some (prior.getD [] ++ [("contactResult", contactId)]) }
        (store, k + 1)
      | .error msg =>
        match snap.crmActions.find? (fun a =>
            a.type == CRMType.hubspot_contact && a.status == CRMStatus.pending) with
        | some failedAction =>
          let store := SessionStore.updateCRMAction env.now store failedAction.idempotencyKey
            { status := some .failed, error := some msg }
          (store, k + 1)
        | none => (store, k + 1)
    | _, _, _ => (store, k)
  let resp :=
    if isNewRequest userInput then "Absolutely! What else can I help you with?"
    else LeadAgent.generateFinalResponse snap
  (next.1, next.2, resp)

/-- `LeadAgent.respond`. -/
def LeadAgent.respond (env : Env) (snap store : Session) (k : Nat) (userInput : String) :
    Session × Nat × String :=
  if hasRequiredData snap .lead then
    LeadAgent.handleCompleteLead env snap store k userInput
  else
    let store := LeadAgent.extractInformation env.now snap store userInput
    (store, k, LeadAgent.generateResponse snap userInput)

/-! ## Booking agent (agents/booking.ts, class `BookingAgent`) -/

/-- `BookingAgent.extractDateTime`: the relative dates `tonight` /
`tomorrow`, then the two specific-date patterns, which both return
today's date with the extracted time (the source's demo simplification). -/
def extractDateTime (env : Env) (userInput : String) : Option String :=
  let input := lowerStr userInput
  if strIncludes input "tonight" then
    some (env.todayStr ++ " " ++ ((extractTime userInput).getD "19:00"))
  else if strIncludes input "tomorrow" then
    some (env.tomorrowStr ++ " " ++ ((extractTime userInput).getD "19:00"))
  else if hasSlashDate userInput.data || hasMonthDay userInput.data then
    some (env.todayStr ++ " " ++ ((extractTime userInput).getD "19:00"))
  else none

/-- `dateTime.split(' ')[1] || default` (`undefined` and the empty part
both fall back). -/
def splitSecondOr (s dflt : String) : String :=
  let p := secondSpacePart s
  if p.2 && p.1 ≠ "" then p.1 else dflt

/-- `BookingAgent.extractInformation`. -/
def BookingAgent.extractInformation (env : Env) (snap store : Session) (userInput : String) :
    Session :=
  let store :=
    if snap.collected.name.isNone then
      match extractBookingName userInput with
      | some name => SessionStore.updateCollected env.now store { name := some name }
      | none => store
    else store
  let store :=
    if snap.collected.partySize.isNone then
      match extractPartySize userInput with
      | some size => SessionStore.updateCollected env.now store { partySize := some size }
      | none => store
    else store
  let store :=
    if snap.collected.dateTime.isNone then
      match extractDateTime env userInput with
      | some dateTime => SessionStore.updateCollected env.now store { dateTime := some dateTime }
      | none => store
    else store
  let store :=
    if snap.collected.phone.isNone then
      match extractPhone userInput with
      | some phone => SessionStore.updateCollected env.now store { phone := some phone }
      | none => store
    else store
  let input := lowerStr userInput
  if strIncludes input "special" || strIncludes input "request" || strIncludes input "need" then
    match extractSpecialRequests userInput with
    | some specialRequests =>
      SessionStore.updateCollected env.now store { specialRequests := some specialRequests }
    | none => store
  else store

/-- `BookingAgent.checkAvailabilityAndRespond`. -/
def BookingAgent.checkAvailabilityAndRespond (env : Env) (snap : Session) :
    Except Unit String :=
  match snap.collected.partySize, snap.collected.dateTime with
  | some partySize, some dateTime =>
    let date := firstSpacePart dateTime
    let time := splitSecondOr dateTime "19:00"
    if isTimeSlotAvailable env date time partySize then do
      let t ← formatTimeTwelveHour time
      .ok ("Great news! I have availability for " ++ natToStr partySize ++ " people on " ++
        formatDateSpoken env date ++ " at " ++ t ++
        ". What name should I put this reservation under?")
    else
      formatAvailabilityForVoice env date partySize
  | _, _ => .ok "I need both the party size and date/time to check availability."

/-- `BookingAgent.generateConfirmationResponse`. -/
def BookingAgent.generateConfirmationResponse (env : Env) (snap : Session) :
    Except Unit String :=
  match snap.collected.name, snap.collected.partySize, snap.collected.dateTime with
  | some name, some partySize, some dateTime => do
    let date := firstSpacePart dateTime
    let time := splitSecondOr dateTime "19:00"
    let t ← formatTimeTwelveHour time
    .ok ("Perfect! Let me confirm your reservation: " ++ name ++ " for " ++
      natToStr partySize ++ " people on " ++ formatDateSpoken env date ++ " at " ++ t ++
      ". Is that correct?")
  | _, _, _ => .ok "Let me confirm all the details for your reservation."

/-- `BookingAgent.generateResponse`. -/
def BookingAgent.generateResponse (env : Env) (snap : Session) (_userInput : String) :
    Except Unit String :=
  let missing := getMissingFields snap .booking
  if snap.transcript.length ≤ 1 then
    .ok "I\x27d be happy to help you make a reservation! When would you like to dine with us and for how many people?"
  else if missing.contains "party size" then
    .ok "Great! How many people will be joining you?"
  else if missing.contains "date and time" then
    match snap.collected.partySize with
    | some partySize =>
      .ok ("Perfect! For " ++ natToStr partySize ++
        " people, what date and time would work best for you?")
    | none => .ok "What date and time would work best for you?"
  else if snap.collected.partySize.isSome && snap.collected.dateTime.isSome then
    BookingAgent.checkAvailabilityAndRespond env snap
  else if missing.contains "name" then
    .ok "Excellent! What name should I put this reservation under?"
  else
    BookingAgent.generateConfirmationResponse env snap

/-- `BookingAgent.generateSuccessResponse` (called inside the `try` of
`finalizeReservation`; a time-formatting `TypeError` propagates to that
`catch`). -/
def BookingAgent.generateSuccessResponse (env : Env) (snap : Session) : Except Unit String := do
  let date := (snap.collected.dateTime.map firstSpacePart).getD ""
  let time := match snap.collected.dateTime with
    | some dt => splitSecondOr dt ""
    | none => ""
  let t ← formatTimeTwelveHour time
  let base := "Wonderful! Your reservation is confirmed. " ++ jsStrOpt snap.collected.name ++
    " for " ++ (snap.collected.partySize.map natToStr).getD "undefined" ++ " people on " ++
    formatDateSpoken env date ++ " at " ++ t ++ "."
  let withReq :=
    if snap.collected.specialRequests.isSome then
      base ++ " We\x27ve noted your special requests."
    else base
  .ok (withReq ++ " We\x27ll see you then! Is there anything else I can help you with today?")

/-- The recovery response of `finalizeReservation`'s `catch`. -/
def bookingCatchResponse : String :=
  "I apologize, but I\x27m having trouble finalizing your reservation right now. Let me get your phone number and have someone call you back to confirm your booking."

/-- `BookingAgent.finalizeReservation`: pending action, slot reservation
(`reserveSlotOk`), external creation (`env.airtableResult`), then the
status update; any throw inside the `try` yields the recovery response
while the store keeps the writes already made. -/
def BookingAgent.finalizeReservation (env : Env) (snap store : Session) (k : Nat) :
    Session × Nat × String :=
  match snap.collected.name, snap.collected.partySize, snap.collected.dateTime with
  | some name, some partySize, some dateTime =>
    let idempotencyKey := k
    let date := firstSpacePart dateTime
    let time := splitSecondOr dateTime "19:00"
    let store := SessionStore.addCRMAction env.now store
      { type := .airtable_reservation
        status := .pending
        timestamp := env.now
        data := [("name", name), ("partySize", natToStr partySize),
                 ("dateTime", date ++ " " ++ time),
                 ("phone", snap.collected.phone.getD ""),
                 ("specialRequests", snap.collected.specialRequests.getD "")]
        idempotencyKey := idempotencyKey }
    if !reserveSlotOk env date time partySize then
      let store := SessionStore.updateCRMAction env.now store idempotencyKey
        { status := some .failed, error := some "Time slot no longer available" }
      (store, k + 1,
        "I\x27m sorry, but that time slot is no longer available. Let me check other options for you.")
    else
      match env.airtableResult with
      | .error _ => (store, k + 1, bookingCatchResponse)
      | .ok reservationId =>
        let prior := (snap.crmActions.find? fun a => a.idempotencyKey == idempotencyKey).map (·.data)
        let store := SessionStore.updateCRMAction env.now store idempotencyKey
          { status := some .success
            data := some (prior.getD [] ++ [("reservationResult", reservationId)]) }
        match BookingAgent.generateSuccessResponse env snap with
        | .ok r => (store, k + 1, r)
        | .error _ => (store, k + 1, bookingCatchResponse)
  | _, _, _ =>
    (store, k, "I\x27m missing some information. Let me get the complete details for your reservation.")

/-- `BookingAgent.hasConfirmedReservation`. -/
def BookingAgent.hasConfirmedReservation (snap : Session) : Bool :=
  snap.crmActions.any fun a =>
    a.type == CRMType.airtable_reservation && a.status == CRMStatus.success

/-- `BookingAgent.handleCompleteBooking`. -/
def BookingAgent.handleCompleteBooking (env : Env) (snap store : Session) (k : Nat)
    (userInput : String) : Session × Nat × String :=
  if isConfirmation userInput then
    BookingAgent.finalizeReservation env snap store k
  else if isModificationRequest userInput then
    (store, k, "Of course! What would you like to change about your reservation?")
  else
    (store, k, "Would you like me to confirm this reservation for you?")

/-- `BookingAgent.respond`: completion requires both the required data and
an already-confirmed reservation action; otherwise extraction and the
response tree run (whose time formatting can throw, hence `Except`). -/
def BookingAgent.respond (env : Env) (snap store : Session) (k : Nat) (userInput : String) :
    Session × Nat × Except Unit String :=
  if hasRequiredData snap .booking && BookingAgent.hasConfirmedReservation snap then
    let r := BookingAgent.handleCompleteBooking env snap store k userInput
    (r.1, r.2.1, .ok r.2.2)
  else
    let store := BookingAgent.extractInformation env snap store userInput
    (store, k, BookingAgent.generateResponse env snap userInput)

/-! ## Menu agent (agents/menu.ts, class `MenuAgent`) -/

/-- Menu request categories. -/
inductive MenuReqType
  | specials
  | category
  | pricing
  | dietary
  | repeatReq
  | overview
deriving DecidableEq

/-- The `MenuRequest` record. -/
structure MenuRequest where
  rtype : MenuReqType
  category : Option String := none
  dietary : Option String := none
  items : List MenuItem := []

/-- `MenuAgent.filterByDietary`. -/
def MenuAgent.filterByDietary (items : List MenuItem) (dietary : String) : List MenuItem :=
  let dietaryLower := lowerStr dietary
  items.filter fun item =>
    let notes := lowerStr item.dietaryNotes
    if dietaryLower = "vegetarian" then strIncludes notes "vegetarian"
    else if dietaryLower = "vegan" then strIncludes notes "vegan"
    else if dietaryLower = "gluten" then
      strIncludes notes "gluten-free" || strIncludes notes "gluten free"
    else strIncludes notes dietaryLower

/-- `MenuAgent.analyzeMenuRequest`. -/
def MenuAgent.analyzeMenuRequest (env : Env) (userInput : String) : MenuRequest :=
  let input := lowerStr userInput
  let requestedCategory := env.menuCategories.find? fun cat => strIncludes input (lowerStr cat)
  if strIncludes input "special" || strIncludes input "today" then
    { rtype := .specials, items := env.todaysSpecials }
  else
    match requestedCategory with
    | some cat => { rtype := .category, category := some cat, items := env.itemsByCategory cat }
    | none =>
      if strIncludes input "price" || strIncludes input "cost" || strIncludes input "how much" then
        { rtype := .pricing, items := env.availableItems }
      else
        match ["vegetarian", "vegan", "gluten", "allergy", "dairy"].find?
            (fun kw => strIncludes input kw) with
        | some dietaryRequest =>
          { rtype := .dietary, dietary := some dietaryRequest,
            items := MenuAgent.filterByDietary env.availableItems dietaryRequest }
        | none =>
          if strIncludes input "repeat" || strIncludes input "again" || strIncludes input "last" then
            { rtype := .repeatReq }
          else
            { rtype := .overview, items := env.availableItems }

/-- `MenuAgent.handleSpecialsRequest`. -/
def MenuAgent.handleSpecialsRequest (env : Env) (snap : Session) : String :=
  if snap.transcript.length ≤ 1 then
    "I\x27d love to tell you about our menu! " ++ env.specialsForVoice
  else if env.todaysSpecials.isEmpty then
    "We don\x27t have any special items today, but our regular menu has many delicious options. Would you like to hear about our appetizers, entrees, or desserts?"
  else
    env.specialsForVoice ++ " Would you like to hear about anything else on our menu?"

/-- `MenuAgent.handleCategoryRequest`. -/
def MenuAgent.handleCategoryRequest (env : Env) (req : MenuRequest) : String :=
  match req.category with
  | none =>
    "What type of food are you interested in? We have appetizers, entrees, desserts, and today\x27s specials."
  | some category =>
    if req.items.isEmpty then
      "I\x27m sorry, we don\x27t have any " ++ lowerStr category ++
        " items available right now. Would you like to hear about our other options?"
    else
      env.categoryForVoice category ++ " Would you like to hear about any other categories?"

/-- `MenuAgent.handlePricingRequest`. -/
def MenuAgent.handlePricingRequest (env : Env) (req : MenuRequest) : String :=
  if req.items.isEmpty then
    "I\x27d be happy to share pricing information. What specific items are you interested in?"
  else
    let itemsWithPrices := req.items.filter fun item => item.price ≠ ""
    if itemsWithPrices.isEmpty then
      "Let me get you specific pricing information. What items are you interested in?"
    else
      "Here are some examples of our pricing: " ++
        env.formatMenuForVoice (itemsWithPrices.take 5) true ++
        ". Would you like pricing for any specific items?"

/-- `MenuAgent.handleDietaryRequest`. -/
def MenuAgent.handleDietaryRequest (env : Env) (req : MenuRequest) : String :=
  match req.dietary with
  | none =>
    "I\x27d be happy to help with dietary accommodations. What specific dietary needs do you have?"
  | some dietary =>
    if req.items.isEmpty then
      "I don\x27t see any items specifically marked for " ++ dietary ++
        " diets, but our kitchen can often make accommodations. Would you like me to tell you about items that could potentially be modified?"
    else
      "For " ++ dietary ++ " options, I\x27d recommend: " ++ env.formatMenuForVoice req.items false ++
        ". Our kitchen can also make modifications to other dishes when possible."

/-- `MenuAgent.handleRepeatRequest`. -/
def MenuAgent.handleRepeatRequest (snap : Session) : String :=
  match snap.lastMenuRead with
  | some (m :: ms) => "Of course! Here are those menu items again: " ++ joinSep ". " (m :: ms)
  | _ =>
    match getLastAgentMessage snap with
    | some e =>
      if e.text.data.length > 50 then "Sure! Let me repeat that: " ++ e.text
      else "I haven\x27t shared any specific menu items yet. What would you like to hear about?"
    | none => "I haven\x27t shared any specific menu items yet. What would you like to hear about?"

/-- `MenuAgent.handleOverviewRequest`. -/
def MenuAgent.handleOverviewRequest (env : Env) (snap : Session) : String :=
  if snap.transcript.length ≤ 1 then
    "I\x27d love to tell you about our menu! " ++ env.menuOverviewForVoice
  else
    let response := "Our menu has something for everyone. "
    let response :=
      if !env.todaysSpecials.isEmpty then
        response ++ "We have some exciting specials today, plus "
      else response
    let response :=
      if !env.menuCategories.isEmpty then
        response ++ "our regular " ++ joinSep ", " env.menuCategories ++ " options. "
      else response
    response ++ "What would you like to hear about first?"

/-- `MenuAgent.generateMenuResponse`. -/
def MenuAgent.generateMenuResponse (env : Env) (snap : Session) (req : MenuRequest) : String :=
  match req.rtype with
  | .specials => MenuAgent.handleSpecialsRequest env snap
  | .category => MenuAgent.handleCategoryRequest env req
  | .pricing => MenuAgent.handlePricingRequest env req
  | .dietary => MenuAgent.handleDietaryRequest env req
  | .repeatReq => MenuAgent.handleRepeatRequest snap
  | .overview => MenuAgent.handleOverviewRequest env snap

/-- `MenuAgent.respond`: analyze, respond, then track `lastMenuRead` when
items were shared. -/
def MenuAgent.respond (env : Env) (snap store : Session) (userInput : String) :
    Session × String :=
  let menuRequest := MenuAgent.analyzeMenuRequest env userInput
  let response := MenuAgent.generateMenuResponse env snap menuRequest
  let store :=
    if !menuRequest.items.isEmpty then
      let menuDescriptions := menuRequest.items.map fun item =>
        item.name ++ (if item.price ≠ "" then " for $" ++ item.price else "")
      SessionStore.update env.now store { lastMenuRead := some menuDescriptions }
    else store
  (store, response)

/-! ## Agent router (agents/index.ts, `AgentRouter.processMessage`) -/

/-- The single fixed generic apology returned by the router's `catch`. -/
def apologyResponse : String :=
  "I apologize, but I\x27m having trouble processing your request right now. Could you please repeat what you need help with?"

/-- `AgentRouter.handleUnknownIntent` (the default dispatch case). -/
def unknownIntentResponse : String :=
  "I\x27d be happy to help you! I can assist with making a reservation, telling you about our menu and specials, or providing general information about our restaurant. What would you like to know more about?"

/-- Injected exception points for the phases of a turn, modelling
exceptions raised inside override checking, intent detection, or agent
dispatch; the booking agent's own response-tree exceptions are modelled
directly by its `Except` result. -/
structure Faults where
  overridesThrow : Bool := false
  detectThrow : Bool := false
  agentThrow : Bool := false

/-- The fault-free instantiation. -/
def noFaults : Faults := {}

/-- Result of one router call: the in-flight session object (which the
router may have mutated with the detected intent), the store's session
object, the next fresh idempotency key, and the response text. -/
structure TurnResult where
  snap : Session
  store : Session
  nextKey : Nat
  response : String

/-- The `switch (session.currentIntent)` dispatch of `processMessage`:
route to the active intent's agent; an unset intent falls back to the
clarifying response. A booking-agent exception (its `Except` error)
reaches the router's `catch`, which keeps the store writes made so far
and answers with the apology. -/
def dispatchAgent (env : Env) (snap store : Session) (k : Nat) (userInput : String) :
    TurnResult :=
  match snap.currentIntent with
  | some .lead =>
    let r := LeadAgent.respond env snap store k userInput
    ⟨snap, r.1, r.2.1, r.2.2⟩
  | some .booking =>
    let r := BookingAgent.respond env snap store k userInput
    match r.2.2 with
    | .ok response => ⟨snap, r.1, r.2.1, response⟩
    | .error _ => ⟨snap, r.1, r.2.1, apologyResponse⟩
  | some .menu =>
    let r := MenuAgent.respond env snap store userInput
    ⟨snap, r.1, k, r.2⟩
  | none => ⟨snap, store, k, unknownIntentResponse⟩

/-- `AgentRouter.processMessage`: policy overrides first (a returned
response short-circuits the turn), intent detection when the in-flight
object has no intent (the write lands on that object only), dispatch to
the intent's agent, and the boundary `catch` converting any raised
exception into the fixed apology; store writes made before a throw
persist. -/
def processMessage (env : Env) (f : Faults) (snap store : Session) (k : Nat)
    (userInput : String) : TurnResult :=
  if f.overridesThrow then ⟨snap, store, k, apologyResponse⟩
  else
    match checkPolicyOverrides snap userInput with
    | some policyResponse => ⟨snap, store, k, policyResponse⟩
    | none =>
      if f.detectThrow then ⟨snap, store, k, apologyResponse⟩
      else
        let snap := match snap.currentIntent with
          | some _ => snap
          | none => { snap with currentIntent := some (detectIntent snap userInput) }
        if f.agentThrow then ⟨snap, store, k, apologyResponse⟩
        else dispatchAgent env snap store k userInput

/-! ## Webhook turn (routes/vapi-webhook.ts) -/

/-- State threaded across turns: the store's current object for the call
and the next fresh idempotency key (model of `uuidv4()` freshness). -/
structure World where
  store : Session
  nextKey : Nat

/-- Session effect of `call.started`: create the session, then append the
greeting as an agent transcript entry. -/
def callStartedWorld (callId greeting : String) (now : Nat) : World :=
  { store := SessionStore.addTranscript now (SessionStore.create callId now)
      { who := .agent, text := greeting, timestamp := now }
    nextKey := 0 }

/-- One `asr.final` turn: the handler takes the session object from the
store, appends the caller transcript (the store's `update` replaces the
map entry, so the taken object becomes a stale snapshot), runs the router
on the snapshot, and appends the agent response to the store. -/
def asrFinalTurn (env : Env) (w : World) (transcript : String) : World × String :=
  let snap := w.store
  let store := SessionStore.addTranscript env.now w.store
    { who := .caller, text := transcript, timestamp := env.now }
  let r := processMessage env noFaults snap store w.nextKey transcript
  let store := SessionStore.addTranscript env.now r.store
    { who := .agent, text := r.response, timestamp := env.now }
  ({ store := store, nextKey := r.nextKey }, r.response)

/-- A whole conversation: `call.started` followed by the given caller
turns, each with its own collaborator environment. -/
def runTurns (callId greeting : String) (turns : List (Env × String)) : World :=
  turns.foldl (fun w t => (asrFinalTurn t.1 w t.2).1) (callStartedWorld callId greeting 0)

/-- Number of CRM actions of a type with a given status. -/
def countStatus (actions : List CRMAction) (ty : CRMType) (st : CRMStatus) : Nat :=
  (actions.filter fun a => a.type == ty && a.status == st).length

/-- Number of successful CRM actions of a type. -/
def successCount (actions : List CRMAction) (ty : CRMType) : Nat :=
  countStatus actions ty CRMStatus.success

/-! ## Basic lemmas about the store operations -/

@[simp]
theorem update_collected (now : Nat) (s : Session) (p : SessionPatch) :
    (SessionStore.update now s p).collected = p.collected.getD s.collected := rfl

@[simp]
theorem update_crmActions (now : Nat) (s : Session) (p : SessionPatch) :
    (SessionStore.update now s p).crmActions = p.crmActions.getD s.crmActions := rfl

@[simp]
theorem update_transcript (now : Nat) (s : Session) (p : SessionPatch) :
    (SessionStore.update now s p).transcript = p.transcript.getD s.transcript := rfl

@[simp]
theorem update_currentIntent (now : Nat) (s : Session) (p : SessionPatch) :
    (SessionStore.update now s p).currentIntent = s.currentIntent := rfl

@[simp]
theorem mergeCollected_name (old : CollectedData) (p : CollectedPatch) :
    (mergeCollected old p).name = (p.name <|> old.name) := rfl

@[simp]
theorem mergeCollected_email (old : CollectedData) (p : CollectedPatch) :
    (mergeCollected old p).email = (p.email <|> old.email) := rfl

@[simp]
theorem mergeCollected_phone (old : CollectedData) (p : CollectedPatch) :
    (mergeCollected old p).phone = (p.phone <|> old.phone) := rfl

@[simp]
theorem mergeCollected_partySize (old : CollectedData) (p : CollectedPatch) :
    (mergeCollected old p).partySize = (p.partySize <|> old.partySize) := rfl

@[simp]
theorem mergeCollected_dateTime (old : CollectedData) (p : CollectedPatch) :
    (mergeCollected old p).dateTime = (p.dateTime <|> old.dateTime) := rfl

@[simp]
theorem mergeCollected_useCase (old : CollectedData) (p : CollectedPatch) :
    (mergeCollected old p).useCase = (p.useCase <|> old.useCase) := rfl

@[simp]
theorem mergeCollected_specialRequests (old : CollectedData) (p : CollectedPatch) :
    (mergeCollected old p).specialRequests = (p.specialRequests <|> old.specialRequests) := rfl

theorem updateCRMAction_collected (now : Nat) (s : Session) (k : Nat) (u : CRMUpdate) :
    (SessionStore.updateCRMAction now s k u).collected = s.collected := by
  unfold SessionStore.updateCRMAction
  split <;> rfl

theorem updateCRMAction_transcript (now : Nat) (s : Session) (k : Nat) (u : CRMUpdate) :
    (SessionStore.updateCRMAction now s k u).transcript = s.transcript := by
  unfold SessionStore.updateCRMAction
  split <;> rfl

/-! ## Lemmas about `jsFindIndex` and `listModifyAt` -/

theorem jsFindIndex_eq_none_of_all {p : α → Bool} {l : List α}
    (h : ∀ a ∈ l, p a = false) : jsFindIndex p l = none := by
  induction l with
  | nil => rfl
  | cons x xs ih =>
    simp only [jsFindIndex, h x (List.mem_cons_self x xs), if_false, Bool.false_eq_true]
    rw [ih fun a ha => h a (List.mem_cons_of_mem x ha)]
    rfl

theorem listModifyAt_length (f : α → α) (i : Nat) (l : List α) :
    (listModifyAt f i l).length = l.length := by
  induction l generalizing i with
  | nil => cases i <;> rfl
  | cons x xs ih =>
    cases i with
    | zero => rfl
    | succ n => simpa [listModifyAt] using ih n

theorem listModifyAt_get_self (f : α → α) (i : Nat) (l : List α) :
    (listModifyAt f i l).get? i = (l.get? i).map f := by
  induction l generalizing i with
  | nil => cases i <;> rfl
  | cons x xs ih =>
    cases i with
    | zero => rfl
    | succ n => simpa [listModifyAt] using ih n

theorem listModifyAt_get_ne (f : α → α) {i j : Nat} (h : j ≠ i) (l : List α) :
    (listModifyAt f i l).get? j = l.get? j := by
  induction l generalizing i j with
  | nil => cases i <;> rfl
  | cons x xs ih =>
    cases i with
    | zero =>
      cases j with
      | zero => exact absurd rfl h
      | succ m => rfl
    | succ n =>
      cases j with
      | zero => rfl
      | succ m => simpa [listModifyAt] using ih (fun hc => h (by rw [hc])) 

/-! ## C8 — `updateCRMAction` on a missing key is a silent no-op -/

/-- C8: when the idempotency key matches no action, `updateCRMAction`
returns the session object unchanged (collected, crmActions, lastActivity
and all other fields included) and surfaces no error; when the key
matches, exactly the first matching action is updated with the merge of
the partial update and every other action is untouched. -/
theorem updateCRMAction_missing_noop_and_targeted (now : Nat) (s : Session) (key : Nat)
    (upd : CRMUpdate) :
    ((∀ a ∈ s.crmActions, a.idempotencyKey ≠ key) →
        SessionStore.updateCRMAction now s key upd = s) ∧
    (∀ i, jsFindIndex (fun a => a.idempotencyKey == key) s.crmActions = some i →
      (SessionStore.updateCRMAction now s key upd).crmActions.get? i =
          (s.crmActions.get? i).map (applyCRMUpdate · upd) ∧
        (∀ j, j ≠ i →
          (SessionStore.updateCRMAction now s key upd).crmActions.get? j =
            s.crmActions.get? j) ∧
        (SessionStore.updateCRMAction now s key upd).crmActions.length =
          s.crmActions.length ∧
        (SessionStore.updateCRMAction now s key upd).collected = s.collected) := by
  constructor
  · intro h
    have hnone : jsFindIndex (fun a => a.idempotencyKey == key) s.crmActions = none :=
      jsFindIndex_eq_none_of_all fun a ha => by
        simpa using h a ha
    unfold SessionStore.updateCRMAction
    rw [hnone]
  · intro i hi
    unfold SessionStore.updateCRMAction
    rw [hi]
    refine ⟨?_, ?_, ?_, rfl⟩
    · simpa using listModifyAt_get_self (applyCRMUpdate · upd) i s.crmActions
    · intro j hj
      simpa using listModifyAt_get_ne (applyCRMUpdate · upd) hj s.crmActions
    · simpa using listModifyAt_length (applyCRMUpdate · upd) i s.crmActions

/-- Sample session for the C8 witness. -/
def c8Session : Session :=
  { callId := "c8", createdAt := 0, lastActivity := 3,
    crmActions :=
      [{ type := .hubspot_contact, status := .pending, timestamp := 1, data := [],
         idempotencyKey := 0 },
       { type := .airtable_reservation, status := .pending, timestamp := 2, data := [],
         idempotencyKey := 1 }] }

/-- Witness for C8 at a concrete session: key `5` matches nothing and the
call is the identity; key `1` matches index `1`, which alone is updated. -/
theorem updateCRMAction_missing_noop_and_targeted_witness :
    (∀ a ∈ c8Session.crmActions, a.idempotencyKey ≠ 5) ∧
    SessionStore.updateCRMAction 7 c8Session 5 { status := some .failed } = c8Session ∧
    jsFindIndex (fun a => a.idempotencyKey == 1) c8Session.crmActions = some 1 ∧
    (SessionStore.updateCRMAction 7 c8Session 1 { status := some .success }).crmActions.get? 1 =
      (c8Session.crmActions.get? 1).map (applyCRMUpdate · { status := some .success }) ∧
    (SessionStore.updateCRMAction 7 c8Session 1 { status := some .success }).crmActions.get? 0 =
      c8Session.crmActions.get? 0 :=
  ⟨by decide,
   (updateCRMAction_missing_noop_and_targeted 7 c8Session 5 { status := some .failed }).1
     (by decide),
   by decide,
   ((updateCRMAction_missing_noop_and_targeted 7 c8Session 1
       { status := some .success }).2 1 (by decide)).1,
   (((updateCRMAction_missing_noop_and_targeted 7 c8Session 1
       { status := some .success }).2 1 (by decide)).2.1) 0 (by decide)⟩

/-! ## C6 — override evaluation skips throwing handlers -/

/-- Specification-side description of the override engine (for the
refinement comparison): among the rules in stable descending-priority
order, the first matching rule whose handler does not throw and returns a
non-empty response determines the result; `none` otherwise. -/
def specFirstNonEmptyOverride (rules : List PolicyOverride) (s : Session)
    (userInput : String) : Option String :=
  let cleanInput := lowerStr (trimStr userInput)
  (sortByPriorityDesc rules).findSome? fun o =>
    if trigMatches o.trigger cleanInput userInput then
      match o.handler s userInput with
      | .ok (some r) => if r ≠ "" then some r else none
      | .ok none => none
      | .error _ => none
    else none

theorem runOverrides_eq_findSome (l : List PolicyOverride) (s : Session)
    (clean raw : String) :
    runOverrides l s clean raw = l.findSome? fun o =>
      if trigMatches o.trigger clean raw then
        match o.handler s raw with
        | .ok (some r) => if r ≠ "" then some r else none
        | .ok none => none
        | .error _ => none
      else none := by
  induction l with
  | nil => rfl
  | cons o os ih =>
    rw [List.findSome?_cons]
    by_cases hm : trigMatches o.trigger clean raw
    · simp only [runOverrides, hm, if_true]
      cases hh : o.handler s raw with
      | ok r? =>
        cases r? with
        | some r =>
          by_cases hr : r = ""
          · simp [hr, ih]
          · simp [hr]
        | none => simp [ih]
      | error e => simp [ih]
    · simp only [runOverrides, hm, if_false, Bool.false_eq_true]
      simpa using ih

/-- C6: for every rule table, session and input, a matching handler that
throws is skipped and evaluation continues through the remaining rules in
stable descending-priority order; the engine returns the first non-empty
response of a non-throwing matching handler, and `none` when no matching
handler produces a non-empty response. -/
theorem checkPolicyOverrides_skips_throwing_handlers (rules : List PolicyOverride)
    (s : Session) (userInput : String) :
    checkPolicyOverridesWith rules s userInput =
      specFirstNonEmptyOverride rules s userInput := by
  unfold checkPolicyOverridesWith specFirstNonEmptyOverride
  exact runOverrides_eq_findSome _ s _ userInput

/-! ## C9 — equal-priority overrides resolve by original list position -/

/-- Session and utterance of the C9 example. -/
def c9Session : Session := { callId := "c9", createdAt := 0, lastActivity := 0 }

/-- Utterance matching both the repeat trigger (list index 1) and the
transfer-to-human trigger (list index 7). -/
def c9Utterance : String := "could you repeat that to a human"

/-- C9: the repeat rule and the human rule share priority 9, both triggers
match the utterance, no higher-priority rule matches, both handlers return
non-empty responses — and the engine returns the response of the rule that
appears earlier in `POLICY_OVERRIDES` (the stable sort keeps index 1 ahead
of index 7). -/
theorem override_equal_priority_prefers_earlier_rule :
    (POLICY_OVERRIDES.get? 1).map (fun o => o.priority) = some 9 ∧
    (POLICY_OVERRIDES.get? 7).map (fun o => o.priority) = some 9 ∧
    (POLICY_OVERRIDES.get? 1).map (fun o =>
      trigMatches o.trigger (lowerStr (trimStr c9Utterance)) c9Utterance) = some true ∧
    (POLICY_OVERRIDES.get? 7).map (fun o =>
      trigMatches o.trigger (lowerStr (trimStr c9Utterance)) c9Utterance) = some true ∧
    (POLICY_OVERRIDES.filter fun o => o.priority > 9).all
      (fun o => !trigMatches o.trigger (lowerStr (trimStr c9Utterance)) c9Utterance) = true ∧
    (POLICY_OVERRIDES.get? 1).map (fun o => o.handler c9Session c9Utterance) =
      some (.ok (some "I\x27m sorry, let me start over. How can I help you today?")) ∧
    (POLICY_OVERRIDES.get? 7).map (fun o => o.handler c9Session c9Utterance) =
      some (.ok (some "I understand you\x27d like to speak with someone from our team. Let me get your contact information and have someone call you back within the hour. What\x27s the best number to reach you?")) ∧
    checkPolicyOverrides c9Session c9Utterance =
      some "I\x27m sorry, let me start over. How can I help you today?" :=
  ⟨rfl, rfl, rfl, rfl, by decide, rfl, rfl, by decide⟩

/-! ## C2 — intent selection and its tie-breaking -/

/-- Real value of an embedded score fraction. -/
def Q.val (q : Q) : ℚ := (q.n : ℚ) / (q.d : ℚ)

/-- Every combined score has a positive denominator (the keyword lists are
non-empty). -/
theorem combinedScore_d_pos (s : Session) (u : String) (i : Intent) :
    0 < (combinedScore s u i).d := by
  cases i <;>
    · simp only [combinedScore, getIntentConfidence, Q.add, Q.scale, Q.nat, Q.minQ]
      split <;> simp [confLeadKeywords, confBookingKeywords, confMenuKeywords]

/-- The computational comparison agrees with the real-valued one. -/
theorem Q.blt_iff_val {a b : Q} (ha : 0 < a.d) (hb : 0 < b.d) :
    Q.blt a b = true ↔ a.val < b.val := by
  have ha' : (0 : ℚ) < a.d := by exact_mod_cast ha
  have hb' : (0 : ℚ) < b.d := by exact_mod_cast hb
  unfold Q.blt Q.val
  rw [div_lt_div_iff₀ ha' hb', decide_eq_true_eq]
  exact_mod_cast Iff.rfl

/-- Session of the C2 counterexample (fresh: no caller transcript). -/
def c2Session : Session := { callId := "c2", createdAt := 0, lastActivity := 0 }

/-- C2 counterexample: on a fresh session, the utterance `"book food"`
scores booking and menu equally (both strictly above lead), so no intent
has the strictly highest combined score — yet detection returns `menu`,
not the claimed `lead` fallback. -/
theorem detectIntent_bm_tie_yields_menu :
    detectIntent c2Session "book food" = Intent.menu ∧
    (combinedScore c2Session "book food" .booking).val =
      (combinedScore c2Session "book food" .menu).val ∧
    (combinedScore c2Session "book food" .lead).val <
      (combinedScore c2Session "book food" .booking).val := by
  refine ⟨by decide, ?_, ?_⟩
  · have hb : combinedScore c2Session "book food" .booking = ⟨7, 7⟩ := by decide
    have hm : combinedScore c2Session "book food" .menu = ⟨6, 6⟩ := by decide
    rw [hb, hm]; unfold Q.val; norm_num
  · have hb : combinedScore c2Session "book food" .booking = ⟨7, 7⟩ := by decide
    have hl : combinedScore c2Session "book food" .lead = ⟨0, 6⟩ := by decide
    rw [hb, hl]; unfold Q.val; norm_num

/-- C2 (amended): detection selects `booking` exactly when booking's
combined score strictly exceeds both others; otherwise `menu` exactly when
menu's score strictly exceeds lead's (so a booking–menu tie above lead
resolves to `menu`); all remaining cases — three-way ties, a menu–lead
tie, and the all-zero no-signal case — resolve to `lead`. -/
theorem detectIntent_selection_rule (s : Session) (u : String) :
    (detectIntent s u = Intent.booking ↔
      (combinedScore s u .menu).val < (combinedScore s u .booking).val ∧
        (combinedScore s u .lead).val < (combinedScore s u .booking).val) ∧
    (detectIntent s u = Intent.menu ↔
      ¬((combinedScore s u .menu).val < (combinedScore s u .booking).val ∧
          (combinedScore s u .lead).val < (combinedScore s u .booking).val) ∧
        (combinedScore s u .lead).val < (combinedScore s u .menu).val) ∧
    (detectIntent s u = Intent.lead ↔
      ¬((combinedScore s u .menu).val < (combinedScore s u .booking).val ∧
          (combinedScore s u .lead).val < (combinedScore s u .booking).val) ∧
        ¬((combinedScore s u .lead).val < (combinedScore s u .menu).val)) := by
  have h1 := Q.blt_iff_val (combinedScore_d_pos s u .menu) (combinedScore_d_pos s u .booking)
  have h2 := Q.blt_iff_val (combinedScore_d_pos s u .lead) (combinedScore_d_pos s u .booking)
  have h3 := Q.blt_iff_val (combinedScore_d_pos s u .lead) (combinedScore_d_pos s u .menu)
  simp only [detectIntent]
  cases e1 : Q.blt (combinedScore s u .menu) (combinedScore s u .booking) <;>
    cases e2 : Q.blt (combinedScore s u .lead) (combinedScore s u .booking) <;>
      cases e3 : Q.blt (combinedScore s u .lead) (combinedScore s u .menu) <;>
        simp only [← h1, ← h2, ← h3] <;> simp [e1, e2, e3]

/-! ## C3 / C4 — the two webhook scenarios, evaluated -/

/-- Greeting appended by `call.started` (one of the router's canned
greetings; only its presence in the transcript matters). -/
def sampleGreeting : String := "Hello! Thanks for calling. How can I help you today?"

/-- The lead-capture scenario: the two caller turns of the claim on a
fresh session, through the webhook pipeline. -/
def leadScenarioWorld : World :=
  runTurns "lead-test-call" sampleGreeting
    [(defaultEnv, "I\x27d like information about your services"),
     (defaultEnv, "My name is Test User and email is test@example.com")]

/-- C3, evaluated on the code: after the two turns the greedy name pattern
has captured `"Test User and email is test"` (the `[a-zA-Z\s]+` run stops
only at `@`), the email is correct, no `hubspot_contact` action exists at
all (the completion check runs before extraction, so the upsert would
happen only on a later turn), and the store's session has no
`currentIntent` (the router wrote the detected intent onto a stale
object). The first turn's detection itself does pick `lead`. -/
theorem lead_scenario_run :
    leadScenarioWorld.store.collected.name = some "Test User and email is test" ∧
    leadScenarioWorld.store.collected.email = some "test@example.com" ∧
    (leadScenarioWorld.store.crmActions.filter fun a =>
      a.type == CRMType.hubspot_contact).length = 0 ∧
    leadScenarioWorld.store.crmActions = [] ∧
    leadScenarioWorld.store.currentIntent = none ∧
    detectIntent (callStartedWorld "lead-test-call" sampleGreeting 0).store
      "I\x27d like information about your services" = Intent.lead := by
  refine ⟨by decide, by decide, by decide, by decide, by decide, by decide⟩

/-- The booking scenario: the two caller turns of the claim on a fresh
session, through the webhook pipeline. -/
def bookingScenarioWorld : World :=
  runTurns "booking-test-call" sampleGreeting
    [(defaultEnv, "I would like to make a reservation for 4 people tonight at 7 PM"),
     (defaultEnv, "The name is Sarah Johnson")]

/-- World after only the first booking turn (used to show the second
turn's detection still routes to the booking agent). -/
def bookingScenarioAfterTurn1 : World :=
  runTurns "booking-test-call" sampleGreeting
    [(defaultEnv, "I would like to make a reservation for 4 people tonight at 7 PM")]

/-- C4, evaluated on the code: the first turn extracts `partySize = 4` and
both turns' detection picks `booking`, but `"The name is Sarah Johnson"`
matches none of the booking name patterns (`my name is`, `i'm`, `this is`,
`under`, `for`), so `collected.name` stays unset; the store's session also
ends with no `currentIntent` (stale-object write). -/
theorem booking_scenario_run :
    bookingScenarioWorld.store.collected.partySize = some 4 ∧
    bookingScenarioWorld.store.collected.name = none ∧
    bookingScenarioWorld.store.currentIntent = none ∧
    detectIntent (callStartedWorld "booking-test-call" sampleGreeting 0).store
      "I would like to make a reservation for 4 people tonight at 7 PM" = Intent.booking ∧
    detectIntent bookingScenarioAfterTurn1.store "The name is Sarah Johnson" = Intent.booking ∧
    extractBookingName "The name is Sarah Johnson" = none := by
  refine ⟨by decide, by decide, by decide, by decide, by decide, by decide⟩


/-! ## C7 — required slots are never cleared or overwritten by a turn -/

@[simp]
theorem updateCollected_collected (now : Nat) (s : Session) (p : CollectedPatch) :
    (SessionStore.updateCollected now s p).collected = mergeCollected s.collected p := rfl

@[simp]
theorem updateCollected_crmActions (now : Nat) (s : Session) (p : CollectedPatch) :
    (SessionStore.updateCollected now s p).crmActions = s.crmActions := rfl

@[simp]
theorem addTranscript_collected (now : Nat) (s : Session) (e : TranscriptEntry) :
    (SessionStore.addTranscript now s e).collected = s.collected := rfl

@[simp]
theorem addTranscript_crmActions (now : Nat) (s : Session) (e : TranscriptEntry) :
    (SessionStore.addTranscript now s e).crmActions = s.crmActions := rfl

@[simp]
theorem addCRMAction_collected (now : Nat) (s : Session) (a : CRMAction) :
    (SessionStore.addCRMAction now s a).collected = s.collected := rfl

theorem leadExtract_name (now : Nat) (snap store : Session) (u : String) (v : String)
    (h : snap.collected.name = some v) :
    (LeadAgent.extractInformation now snap store u).collected.name
      = store.collected.name := by
  simp only [LeadAgent.extractInformation, h, Option.isNone_some, Bool.false_eq_true, if_false]
  repeat' split
  all_goals simp [apply_ite (fun s : Session => s.collected.name)]

theorem leadExtract_email (now : Nat) (snap store : Session) (u : String) (v : String)
    (h : snap.collected.email = some v) :
    (LeadAgent.extractInformation now snap store u).collected.email
      = store.collected.email := by
  simp only [LeadAgent.extractInformation, h, Option.isNone_some, Bool.false_eq_true, if_false]
  repeat' split
  all_goals simp [apply_ite (fun s : Session => s.collected.email)]

theorem leadExtract_partySize (now : Nat) (snap store : Session) (u : String) :
    (LeadAgent.extractInformation now snap store u).collected.partySize
      = store.collected.partySize := by
  unfold LeadAgent.extractInformation
  repeat' split
  all_goals simp [apply_ite (fun s : Session => s.collected.partySize)]

theorem leadExtract_dateTime (now : Nat) (snap store : Session) (u : String) :
    (LeadAgent.extractInformation now snap store u).collected.dateTime
      = store.collected.dateTime := by
  unfold LeadAgent.extractInformation
  repeat' split
  all_goals simp [apply_ite (fun s : Session => s.collected.dateTime)]

theorem leadComplete_collected (env : Env) (snap store : Session) (k : Nat) (u : String) :
    (LeadAgent.handleCompleteLead env snap store k u).1.collected = store.collected := by
  unfold LeadAgent.handleCompleteLead
  cases snap.crmActions.find? (fun a =>
      a.type == CRMType.hubspot_contact && a.status == CRMStatus.success) <;>
    cases snap.collected.name <;>
      cases snap.collected.email <;>
        simp [updateCRMAction_collected] <;>
          repeat' split
  all_goals simp [updateCRMAction_collected]

theorem leadRespond_name (env : Env) (snap store : Session) (k : Nat) (u : String)
    (v : String) (h : snap.collected.name = some v) :
    (LeadAgent.respond env snap store k u).1.collected.name = store.collected.name := by
  unfold LeadAgent.respond
  split
  · simp [leadComplete_collected]
  · exact leadExtract_name env.now snap store u v h

theorem leadRespond_email (env : Env) (snap store : Session) (k : Nat) (u : String)
    (v : String) (h : snap.collected.email = some v) :
    (LeadAgent.respond env snap store k u).1.collected.email = store.collected.email := by
  unfold LeadAgent.respond
  split
  · simp [leadComplete_collected]
  · exact leadExtract_email env.now snap store u v h

theorem leadRespond_partySize (env : Env) (snap store : Session) (k : Nat) (u : String) :
    (LeadAgent.respond env snap store k u).1.collected.partySize
      = store.collected.partySize := by
  unfold LeadAgent.respond
  split
  · simp [leadComplete_collected]
  · exact leadExtract_partySize env.now snap store u

theorem leadRespond_dateTime (env : Env) (snap store : Session) (k : Nat) (u : String) :
    (LeadAgent.respond env snap store k u).1.collected.dateTime
      = store.collected.dateTime := by
  unfold LeadAgent.respond
  split
  · simp [leadComplete_collected]
  · exact leadExtract_dateTime env.now snap store u

theorem bookingExtract_name (env : Env) (snap store : Session) (u : String) (v : String)
    (h : snap.collected.name = some v) :
    (BookingAgent.extractInformation env snap store u).collected.name
      = store.collected.name := by
  simp only [BookingAgent.extractInformation, h, Option.isNone_some, Bool.false_eq_true,
    if_false]
  repeat' split
  all_goals simp [apply_ite (fun s : Session => s.collected.name)]

theorem bookingExtract_partySize (env : Env) (snap store : Session) (u : String) (n : Nat)
    (h : snap.collected.partySize = some n) :
    (BookingAgent.extractInformation env snap store u).collected.partySize
      = store.collected.partySize := by
  simp only [BookingAgent.extractInformation, h, Option.isNone_some, Bool.false_eq_true,
    if_false]
  repeat' split
  all_goals simp [apply_ite (fun s : Session => s.collected.partySize)]

theorem bookingExtract_dateTime (env : Env) (snap store : Session) (u : String) (v : String)
    (h : snap.collected.dateTime = some v) :
    (BookingAgent.extractInformation env snap store u).collected.dateTime
      = store.collected.dateTime := by
  simp only [BookingAgent.extractInformation, h, Option.isNone_some, Bool.false_eq_true,
    if_false]
  repeat' split
  all_goals simp [apply_ite (fun s : Session => s.collected.dateTime)]

theorem bookingExtract_email (env : Env) (snap store : Session) (u : String) :
    (BookingAgent.extractInformation env snap store u).collected.email
      = store.collected.email := by
  unfold BookingAgent.extractInformation
  repeat' split
  all_goals simp [apply_ite (fun s : Session => s.collected.email)]

theorem bookingComplete_collected (env : Env) (snap store : Session) (k : Nat) (u : String) :
    (BookingAgent.handleCompleteBooking env snap store k u).1.collected
      = store.collected := by
  unfold BookingAgent.handleCompleteBooking BookingAgent.finalizeReservation
  cases snap.collected.name <;>
    cases snap.collected.partySize <;>
      cases snap.collected.dateTime <;>
        simp [updateCRMAction_collected] <;>
          repeat' split
  all_goals simp [updateCRMAction_collected]

theorem bookingRespond_name (env : Env) (snap store : Session) (k : Nat) (u : String)
    (v : String) (h : snap.collected.name = some v) :
    (BookingAgent.respond env snap store k u).1.collected.name = store.collected.name := by
  unfold BookingAgent.respond
  split
  · simp [bookingComplete_collected]
  · exact bookingExtract_name env snap store u v h

theorem bookingRespond_email (env : Env) (snap store : Session) (k : Nat) (u : String) :
    (BookingAgent.respond env snap store k u).1.collected.email = store.collected.email := by
  unfold BookingAgent.respond
  split
  · simp [bookingComplete_collected]
  · exact bookingExtract_email env snap store u

theorem bookingRespond_partySize (env : Env) (snap store : Session) (k : Nat) (u : String)
    (n : Nat) (h : snap.collected.partySize = some n) :
    (BookingAgent.respond env snap store k u).1.collected.partySize
      = store.collected.partySize := by
  unfold BookingAgent.respond
  split
  · simp [bookingComplete_collected]
  · exact bookingExtract_partySize env snap store u n h

theorem bookingRespond_dateTime (env : Env) (snap store : Session) (k : Nat) (u : String)
    (v : String) (h : snap.collected.dateTime = some v) :
    (BookingAgent.respond env snap store k u).1.collected.dateTime
      = store.collected.dateTime := by
  unfold BookingAgent.respond
  split
  · simp [bookingComplete_collected]
  · exact bookingExtract_dateTime env snap store u v h

theorem menuRespond_collected (env : Env) (snap store : Session) (u : String) :
    (MenuAgent.respond env snap store u).1.collected = store.collected := by
  unfold MenuAgent.respond
  simp [apply_ite (fun s : Session => s.collected)]

theorem dispatchAgent_name (env : Env) (snap store : Session) (k : Nat) (u : String)
    (v : String) (h : snap.collected.name = some v) :
    (dispatchAgent env snap store k u).store.collected.name = store.collected.name := by
  unfold dispatchAgent
  cases hi : snap.currentIntent with
  | none => simp
  | some i =>
    cases i with
    | lead => simp [leadRespond_name _ _ _ _ _ _ h]
    | booking =>
      cases hb : (BookingAgent.respond env snap store k u).2.2 <;>
        simp [hb, bookingRespond_name _ _ _ _ _ _ h]
    | menu => simp [menuRespond_collected]

theorem dispatchAgent_email (env : Env) (snap store : Session) (k : Nat) (u : String)
    (v : String) (h : snap.collected.email = some v) :
    (dispatchAgent env snap store k u).store.collected.email = store.collected.email := by
  unfold dispatchAgent
  cases hi : snap.currentIntent with
  | none => simp
  | some i =>
    cases i with
    | lead => simp [leadRespond_email _ _ _ _ _ _ h]
    | booking =>
      cases hb : (BookingAgent.respond env snap store k u).2.2 <;>
        simp [hb, bookingRespond_email]
    | menu => simp [menuRespond_collected]

theorem dispatchAgent_partySize (env : Env) (snap store : Session) (k : Nat) (u : String)
    (n : Nat) (h : snap.collected.partySize = some n) :
    (dispatchAgent env snap store k u).store.collected.partySize
      = store.collected.partySize := by
  unfold dispatchAgent
  cases hi : snap.currentIntent with
  | none => simp
  | some i =>
    cases i with
    | lead => simp [leadRespond_partySize]
    | booking =>
      cases hb : (BookingAgent.respond env snap store k u).2.2 <;>
        simp [hb, bookingRespond_partySize _ _ _ _ _ _ h]
    | menu => simp [menuRespond_collected]

theorem dispatchAgent_dateTime (env : Env) (snap store : Session) (k : Nat) (u : String)
    (v : String) (h : snap.collected.dateTime = some v) :
    (dispatchAgent env snap store k u).store.collected.dateTime
      = store.collected.dateTime := by
  unfold dispatchAgent
  cases hi : snap.currentIntent with
  | none => simp
  | some i =>
    cases i with
    | lead => simp [leadRespond_dateTime]
    | booking =>
      cases hb : (BookingAgent.respond env snap store k u).2.2 <;>
        simp [hb, bookingRespond_dateTime _ _ _ _ _ _ h]
    | menu => simp [menuRespond_collected]

theorem processMessage_name (env : Env) (f : Faults) (snap store : Session) (k : Nat)
    (u : String) (v : String) (h : snap.collected.name = some v) :
    (processMessage env f snap store k u).store.collected.name
      = store.collected.name := by
  unfold processMessage
  repeat' split
  all_goals simp [dispatchAgent_name, h]

theorem processMessage_email (env : Env) (f : Faults) (snap store : Session) (k : Nat)
    (u : String) (v : String) (h : snap.collected.email = some v) :
    (processMessage env f snap store k u).store.collected.email
      = store.collected.email := by
  unfold processMessage
  repeat' split
  all_goals simp [dispatchAgent_email, h]

theorem processMessage_partySize (env : Env) (f : Faults) (snap store : Session) (k : Nat)
    (u : String) (n : Nat) (h : snap.collected.partySize = some n) :
    (processMessage env f snap store k u).store.collected.partySize
      = store.collected.partySize := by
  unfold processMessage
  repeat' split
  all_goals simp [dispatchAgent_partySize, h]

theorem processMessage_dateTime (env : Env) (f : Faults) (snap store : Session) (k : Nat)
    (u : String) (v : String) (h : snap.collected.dateTime = some v) :
    (processMessage env f snap store k u).store.collected.dateTime
      = store.collected.dateTime := by
  unfold processMessage
  repeat' split
  all_goals simp [dispatchAgent_dateTime, h]

/-- C7: across one webhook turn, every required slot (name, email,
partySize, dateTime) that is defined in the store's session before the
turn is still defined with the same value afterwards: `updateCollected`
only merges, and every agent extraction path writes a required slot only
when the in-flight session shows it unset. -/
theorem required_slots_preserved (env : Env) (w : World) (text : String) :
    (∀ v, w.store.collected.name = some v →
      (asrFinalTurn env w text).1.store.collected.name = some v) ∧
    (∀ v, w.store.collected.email = some v →
      (asrFinalTurn env w text).1.store.collected.email = some v) ∧
    (∀ n, w.store.collected.partySize = some n →
      (asrFinalTurn env w text).1.store.collected.partySize = some n) ∧
    (∀ v, w.store.collected.dateTime = some v →
      (asrFinalTurn env w text).1.store.collected.dateTime = some v) := by
  refine ⟨fun v h => ?_, fun v h => ?_, fun n h => ?_, fun v h => ?_⟩ <;>
    simp only [asrFinalTurn, addTranscript_collected]
  · rw [processMessage_name env noFaults w.store _ w.nextKey text v h,
      addTranscript_collected]; exact h
  · rw [processMessage_email env noFaults w.store _ w.nextKey text v h,
      addTranscript_collected]; exact h
  · rw [processMessage_partySize env noFaults w.store _ w.nextKey text n h,
      addTranscript_collected]; exact h
  · rw [processMessage_dateTime env noFaults w.store _ w.nextKey text v h,
      addTranscript_collected]; exact h

/-- Collected data for the C7 witness: all four required slots filled. -/
def c7Collected : CollectedData :=
  { name := some "Ada Lovelace"
    email := some "ada@example.com"
    partySize := some 2
    dateTime := some "2026-01-01 19:00" }

/-- Concrete world for the C7 witness. -/
def c7World : World :=
  { store := { callId := "c7", createdAt := 0, lastActivity := 0, collected := c7Collected }
    nextKey := 0 }

/-- Witness for C7: a turn on a session with all required slots filled
leaves each of them as it was. -/
theorem required_slots_preserved_witness :
    c7World.store.collected.name = some "Ada Lovelace" ∧
    (asrFinalTurn defaultEnv c7World "I need a quiet window table").1.store.collected.name
      = some "Ada Lovelace" ∧
    (asrFinalTurn defaultEnv c7World "I need a quiet window table").1.store.collected.partySize
      = some 2 ∧
    (asrFinalTurn defaultEnv c7World "I need a quiet window table").1.store.collected.email
      = some "ada@example.com" ∧
    (asrFinalTurn defaultEnv c7World "I need a quiet window table").1.store.collected.dateTime
      = some "2026-01-01 19:00" :=
  ⟨by decide,
   (required_slots_preserved defaultEnv c7World "I need a quiet window table").1 _ (by decide),
   (required_slots_preserved defaultEnv c7World "I need a quiet window table").2.2.1 2 (by decide),
   (required_slots_preserved defaultEnv c7World "I need a quiet window table").2.1 _ (by decide),
   (required_slots_preserved defaultEnv c7World "I need a quiet window table").2.2.2 _ (by decide)⟩

/-! ## C10 — `specialRequests` is overwritten, unlike the guarded slots -/

/-- C10: the booking agent's extraction writes `specialRequests` without
checking whether it is already set: on any turn that reaches extraction
(no required-data-plus-confirmed-reservation completion), an utterance
containing `special`, `request` or `need` together with a request keyword
replaces the stored value with the full text of the new utterance. -/
theorem specialRequests_overwritten (env : Env) (snap store : Session) (k : Nat)
    (input : String) (old : String)
    (hconf : BookingAgent.hasConfirmedReservation snap = false)
    (hold : store.collected.specialRequests = some old)
    (hkw : extractSpecialRequests input = some input)
    (htrig : (strIncludes (lowerStr input) "special" = true ∨
        strIncludes (lowerStr input) "request" = true) ∨
        strIncludes (lowerStr input) "need" = true) :
    (BookingAgent.respond env snap store k input).1.collected.specialRequests
      = some input := by
  unfold BookingAgent.respond
  simp only [hconf, Bool.and_false, Bool.false_eq_true, if_false]
  unfold BookingAgent.extractInformation
  repeat' split
  all_goals simp_all

/-- Session for the C10 witness: `specialRequests` already filled. -/
def c10Snap : Session :=
  { callId := "c10", createdAt := 0, lastActivity := 0,
    collected := { specialRequests := some "window seat please" } }

/-- Witness for C10: a later booking turn with a request keyword replaces
the stored special request with the new utterance. -/
theorem specialRequests_overwritten_witness :
    BookingAgent.hasConfirmedReservation c10Snap = false ∧
    c10Snap.collected.specialRequests = some "window seat please" ∧
    (BookingAgent.respond defaultEnv c10Snap c10Snap 0
        "I need a quiet table for my birthday").1.collected.specialRequests
      = some "I need a quiet table for my birthday" :=
  ⟨by decide, by decide,
   specialRequests_overwritten defaultEnv c10Snap c10Snap 0
     "I need a quiet table for my birthday" "window seat please"
     (by decide) (by decide) (by decide) (by decide)⟩

/-! ## C1 — at most one successful CRM action per (session, type) -/

/-- All idempotency keys in a list are below the freshness counter. -/
def keysBelow (l : List CRMAction) (k : Nat) : Prop :=
  ∀ a ∈ l, a.idempotencyKey < k

/-- Invariant carried across webhook turns: keys are fresh, at most one
successful contact action, and no successful reservation or deal action
(the booking completion branch is unreachable without a prior success). -/
def WorldInv (w : World) : Prop :=
  keysBelow w.store.crmActions w.nextKey ∧
  successCount w.store.crmActions CRMType.hubspot_contact ≤ 1 ∧
  successCount w.store.crmActions CRMType.airtable_reservation = 0 ∧
  successCount w.store.crmActions CRMType.hubspot_deal = 0

@[simp]
theorem applyCRMUpdate_key (a : CRMAction) (u : CRMUpdate) :
    (applyCRMUpdate a u).idempotencyKey = a.idempotencyKey := rfl

@[simp]
theorem applyCRMUpdate_type (a : CRMAction) (u : CRMUpdate) :
    (applyCRMUpdate a u).type = a.type := rfl

theorem successCount_append (l₁ l₂ : List CRMAction) (ty : CRMType) :
    successCount (l₁ ++ l₂) ty = successCount l₁ ty + successCount l₂ ty := by
  unfold successCount countStatus
  rw [List.filter_append, List.length_append]

theorem successCount_cons (a : CRMAction) (l : List CRMAction) (ty : CRMType) :
    successCount (a :: l) ty =
      (if a.type == ty && a.status == CRMStatus.success then 1 else 0) +
        successCount l ty := by
  unfold successCount countStatus
  rw [List.filter_cons]
  split <;> simp_all [Nat.add_comm]

theorem successCount_pending_single (a : CRMAction) (ha : a.status = CRMStatus.pending)
    (ty : CRMType) : successCount [a] ty = 0 := by
  rw [show ([a] : List CRMAction) = a :: [] from rfl, successCount_cons, ha]
  cases a.type <;> cases ty <;> simp [successCount, countStatus]

theorem successCount_modify_failed_le (u : CRMUpdate)
    (hst : u.status = some CRMStatus.failed) (i : Nat) (l : List CRMAction) (ty : CRMType) :
    successCount (listModifyAt (applyCRMUpdate · u) i l) ty ≤ successCount l ty := by
  induction l generalizing i with
  | nil => cases i <;> simp [listModifyAt]
  | cons a l ih =>
    cases i with
    | zero =>
      rw [show listModifyAt (applyCRMUpdate · u) 0 (a :: l) = applyCRMUpdate a u :: l from rfl,
        successCount_cons, successCount_cons]
      have hty : (applyCRMUpdate a u).status = CRMStatus.failed := by
        simp [applyCRMUpdate, hst]
      rw [applyCRMUpdate_type, hty]
      have : (a.type == ty && (CRMStatus.failed == CRMStatus.success)) = false := by
        cases a.type <;> cases ty <;> rfl
      rw [this, if_neg Bool.false_ne_true]
      split <;> omega
    | succ n =>
      rw [show listModifyAt (applyCRMUpdate · u) (n + 1) (a :: l)
          = a :: listModifyAt (applyCRMUpdate · u) n l from rfl,
        successCount_cons, successCount_cons]
      have := ih n
      omega

theorem keysBelow_mono {l : List CRMAction} {k k' : Nat} (h : keysBelow l k) (hk : k ≤ k') :
    keysBelow l k' := fun a ha => Nat.lt_of_lt_of_le (h a ha) hk

theorem keysBelow_append_single {l : List CRMAction} {k : Nat} (h : keysBelow l k)
    (a : CRMAction) (ha : a.idempotencyKey = k) : keysBelow (l ++ [a]) (k + 1) := by
  intro x hx
  rcases List.mem_append.1 hx with hx | hx
  · exact Nat.lt_succ_of_lt (h x hx)
  · rcases List.mem_singleton.1 hx with rfl
    omega

theorem keysBelow_modify {l : List CRMAction} {k : Nat} (h : keysBelow l k)
    (u : CRMUpdate) (i : Nat) : keysBelow (listModifyAt (applyCRMUpdate · u) i l) k := by
  induction l generalizing i with
  | nil => cases i <;> simpa [listModifyAt] using h
  | cons a l ih =>
    cases i with
    | zero =>
      intro x hx
      rcases List.mem_cons.1 hx with rfl | hx
      · simpa using h a (List.mem_cons_self a l)
      · exact h x (List.mem_cons_of_mem a hx)
    | succ n =>
      intro x hx
      rcases List.mem_cons.1 hx with rfl | hx
      · exact h x (List.mem_cons_self x l)
      · exact ih (fun y hy => h y (List.mem_cons_of_mem a hy)) n x hx

theorem jsFindIndex_fresh_append {l : List CRMAction} {k : Nat}
    (h : ∀ a ∈ l, a.idempotencyKey ≠ k) (a : CRMAction) (ha : a.idempotencyKey = k) :
    jsFindIndex (fun x => x.idempotencyKey == k) (l ++ [a]) = some l.length := by
  induction l with
  | nil => simp [jsFindIndex, ha]
  | cons x xs ih =>
    have hx : (x.idempotencyKey == k) = false := by
      simpa using h x (List.mem_cons_self x xs)
    simp only [List.cons_append, jsFindIndex, hx, Bool.false_eq_true, if_false]
    rw [List.append_eq, ih fun y hy => h y (List.mem_cons_of_mem x hy)]
    rfl

theorem listModifyAt_append_len (f : CRMAction → CRMAction) (l : List CRMAction)
    (a : CRMAction) : listModifyAt f l.length (l ++ [a]) = l ++ [f a] := by
  induction l with
  | nil => rfl
  | cons x xs ih => simpa [listModifyAt] using ih

theorem successCount_zero_of_find_none {l : List CRMAction} {ty : CRMType}
    (h : l.find? (fun a => a.type == ty && a.status == CRMStatus.success) = none) :
    successCount l ty = 0 := by
  unfold successCount countStatus
  rw [List.length_eq_zero]
  rw [List.find?_eq_none] at h
  rw [List.filter_eq_nil_iff]
  intro a ha
  simpa using h a ha

theorem hasConfirmed_false_of_zero {snap : Session}
    (h : successCount snap.crmActions CRMType.airtable_reservation = 0) :
    BookingAgent.hasConfirmedReservation snap = false := by
  unfold BookingAgent.hasConfirmedReservation
  unfold successCount countStatus at h
  rw [List.length_eq_zero, List.filter_eq_nil_iff] at h
  rw [List.any_eq_false]
  intro a ha
  exact h a ha

@[simp]
theorem addCRMAction_crmActions (now : Nat) (s : Session) (a : CRMAction) :
    (SessionStore.addCRMAction now s a).crmActions = s.crmActions ++ [a] := rfl

theorem successCount_single_same (a : CRMAction) (ty : CRMType)
    (hst : a.status = CRMStatus.success) (hty : a.type = ty) :
    successCount [a] ty = 1 := by
  have h := successCount_cons a [] ty
  rw [h, hst, hty]
  simp [successCount, countStatus]

theorem successCount_single_other (a : CRMAction) (ty : CRMType) (hty : a.type ≠ ty) :
    successCount [a] ty = 0 := by
  have h := successCount_cons a [] ty
  have hc : (a.type == ty) = false := by
    cases hb : a.type == ty
    · rfl
    · exact absurd (by simpa using hb) hty
  rw [h, hc]
  simp [successCount, countStatus]

theorem updateCRMAction_fresh_append (now now2 : Nat) (s : Session) (a : CRMAction) (k : Nat)
    (hfresh : ∀ x ∈ s.crmActions, x.idempotencyKey ≠ k) (ha : a.idempotencyKey = k)
    (u : CRMUpdate) :
    (SessionStore.updateCRMAction now2 (SessionStore.addCRMAction now s a) k u).crmActions
      = s.crmActions ++ [applyCRMUpdate a u] := by
  unfold SessionStore.updateCRMAction
  rw [addCRMAction_crmActions, jsFindIndex_fresh_append hfresh a ha]
  simp [listModifyAt_append_len]

theorem updateCRMAction_failed_succ_le (now : Nat) (s : Session) (key : Nat) (u : CRMUpdate)
    (hU : u.status = some CRMStatus.failed) (ty : CRMType) :
    successCount (SessionStore.updateCRMAction now s key u).crmActions ty
      ≤ successCount s.crmActions ty := by
  unfold SessionStore.updateCRMAction
  cases h : jsFindIndex (fun a => a.idempotencyKey == key) s.crmActions with
  | none => exact Nat.le_refl _
  | some i => exact successCount_modify_failed_le u hU i s.crmActions ty

theorem updateCRMAction_keysBelow (now : Nat) (s : Session) (key : Nat) (u : CRMUpdate)
    {kk : Nat} (hkeys : keysBelow s.crmActions kk) :
    keysBelow (SessionStore.updateCRMAction now s key u).crmActions kk := by
  unfold SessionStore.updateCRMAction
  cases h : jsFindIndex (fun a => a.idempotencyKey == key) s.crmActions with
  | none => exact hkeys
  | some i => exact keysBelow_modify hkeys u i

theorem leadExtract_crm (now : Nat) (snap store : Session) (u : String) :
    (LeadAgent.extractInformation now snap store u).crmActions = store.crmActions := by
  unfold LeadAgent.extractInformation
  repeat' split
  all_goals simp [apply_ite (fun s : Session => s.crmActions)]

theorem bookingExtract_crm (env : Env) (snap store : Session) (u : String) :
    (BookingAgent.extractInformation env snap store u).crmActions = store.crmActions := by
  unfold BookingAgent.extractInformation
  repeat' split
  all_goals simp [apply_ite (fun s : Session => s.crmActions)]

theorem menuRespond_crm (env : Env) (snap store : Session) (u : String) :
    (MenuAgent.respond env snap store u).1.crmActions = store.crmActions := by
  unfold MenuAgent.respond
  simp [apply_ite (fun s : Session => s.crmActions)]

theorem leadComplete_pending_branch (now : Nat) (store : Session) (k : Nat) (A : CRMAction)
    (hA : A.idempotencyKey = k) (hAst : A.status = CRMStatus.pending)
    (hkeys : keysBelow store.crmActions k)
    (hsucc : successCount store.crmActions CRMType.hubspot_contact ≤ 1)
    (hair : successCount store.crmActions CRMType.airtable_reservation = 0)
    (hdeal : successCount store.crmActions CRMType.hubspot_deal = 0) :
    keysBelow (SessionStore.addCRMAction now store A).crmActions (k + 1) ∧
      successCount (SessionStore.addCRMAction now store A).crmActions
          CRMType.hubspot_contact ≤ 1 ∧
      successCount (SessionStore.addCRMAction now store A).crmActions
          CRMType.airtable_reservation = 0 ∧
      successCount (SessionStore.addCRMAction now store A).crmActions
          CRMType.hubspot_deal = 0 := by
  rw [addCRMAction_crmActions]
  refine ⟨keysBelow_append_single hkeys A hA, ?_, ?_, ?_⟩ <;>
    rw [successCount_append, successCount_pending_single A hAst] <;> omega

theorem leadComplete_ok_branch (now now2 : Nat) (store : Session) (k : Nat) (A : CRMAction)
    (hA : A.idempotencyKey = k) (hAty : A.type = CRMType.hubspot_contact)
    (U : CRMUpdate) (hU : U.status = some CRMStatus.success)
    (hkeys : keysBelow store.crmActions k)
    (hzero : successCount store.crmActions CRMType.hubspot_contact = 0)
    (hair : successCount store.crmActions CRMType.airtable_reservation = 0)
    (hdeal : successCount store.crmActions CRMType.hubspot_deal = 0) :
    keysBelow (SessionStore.updateCRMAction now2 (SessionStore.addCRMAction now store A)
        k U).crmActions (k + 1) ∧
      successCount (SessionStore.updateCRMAction now2 (SessionStore.addCRMAction now store A)
          k U).crmActions CRMType.hubspot_contact ≤ 1 ∧
      successCount (SessionStore.updateCRMAction now2 (SessionStore.addCRMAction now store A)
          k U).crmActions CRMType.airtable_reservation = 0 ∧
      successCount (SessionStore.updateCRMAction now2 (SessionStore.addCRMAction now store A)
          k U).crmActions CRMType.hubspot_deal = 0 := by
  have hfresh : ∀ x ∈ store.crmActions, x.idempotencyKey ≠ k :=
    fun x hx => Nat.ne_of_lt (hkeys x hx)
  rw [updateCRMAction_fresh_append now now2 store A k hfresh hA U]
  have hBk : (applyCRMUpdate A U).idempotencyKey = k := by rw [applyCRMUpdate_key, hA]
  have hBst : (applyCRMUpdate A U).status = CRMStatus.success := by
    simp [applyCRMUpdate, hU]
  have hBty : (applyCRMUpdate A U).type = CRMType.hubspot_contact := by
    rw [applyCRMUpdate_type, hAty]
  refine ⟨keysBelow_append_single hkeys _ hBk, ?_, ?_, ?_⟩
  · rw [successCount_append, hzero, successCount_single_same _ _ hBst hBty]
  · rw [successCount_append, hair,
      successCount_single_other _ _ (by rw [hBty]; exact fun h => by cases h)]
  · rw [successCount_append, hdeal,
      successCount_single_other _ _ (by rw [hBty]; exact fun h => by cases h)]

theorem leadComplete_failed_branch (now now2 : Nat) (store : Session) (k key : Nat)
    (A : CRMAction) (hA : A.idempotencyKey = k) (hAst : A.status = CRMStatus.pending)
    (U : CRMUpdate) (hU : U.status = some CRMStatus.failed)
    (hkeys : keysBelow store.crmActions k)
    (hsucc : successCount store.crmActions CRMType.hubspot_contact ≤ 1)
    (hair : successCount store.crmActions CRMType.airtable_reservation = 0)
    (hdeal : successCount store.crmActions CRMType.hubspot_deal = 0) :
    keysBelow (SessionStore.updateCRMAction now2 (SessionStore.addCRMAction now store A)
        key U).crmActions (k + 1) ∧
      successCount (SessionStore.updateCRMAction now2 (SessionStore.addCRMAction now store A)
          key U).crmActions CRMType.hubspot_contact ≤ 1 ∧
      successCount (SessionStore.updateCRMAction now2 (SessionStore.addCRMAction now store A)
          key U).crmActions CRMType.airtable_reservation = 0 ∧
      successCount (SessionStore.updateCRMAction now2 (SessionStore.addCRMAction now store A)
          key U).crmActions CRMType.hubspot_deal = 0 := by
  have hbase : ∀ ty, successCount (SessionStore.updateCRMAction now2
      (SessionStore.addCRMAction now store A) key U).crmActions ty
        ≤ successCount store.crmActions ty := by
    intro ty
    refine le_trans (updateCRMAction_failed_succ_le now2 _ key U hU ty) ?_
    rw [addCRMAction_crmActions, successCount_append, successCount_pending_single A hAst]
    omega
  refine ⟨?_, ?_, ?_, ?_⟩
  · exact updateCRMAction_keysBelow now2 _ key U (by
      rw [addCRMAction_crmActions]; exact keysBelow_append_single hkeys A hA)
  · exact le_trans (hbase _) hsucc
  · exact Nat.le_zero.mp (le_trans (hbase _) (Nat.le_of_eq hair))
  · exact Nat.le_zero.mp (le_trans (hbase _) (Nat.le_of_eq hdeal))

theorem leadComplete_crm_inv (env : Env) (snap store : Session) (k : Nat) (u : String)
    (hsnap : snap.crmActions = store.crmActions)
    (hkeys : keysBelow store.crmActions k)
    (hsucc : successCount store.crmActions CRMType.hubspot_contact ≤ 1)
    (hair : successCount store.crmActions CRMType.airtable_reservation = 0)
    (hdeal : successCount store.crmActions CRMType.hubspot_deal = 0) :
    keysBelow (LeadAgent.handleCompleteLead env snap store k u).1.crmActions
        (LeadAgent.handleCompleteLead env snap store k u).2.1 ∧
      successCount (LeadAgent.handleCompleteLead env snap store k u).1.crmActions
          CRMType.hubspot_contact ≤ 1 ∧
      successCount (LeadAgent.handleCompleteLead env snap store k u).1.crmActions
          CRMType.airtable_reservation = 0 ∧
      successCount (LeadAgent.handleCompleteLead env snap store k u).1.crmActions
          CRMType.hubspot_deal = 0 := by
  unfold LeadAgent.handleCompleteLead
  cases hfind : snap.crmActions.find? (fun a =>
      a.type == CRMType.hubspot_contact && a.status == CRMStatus.success) with
  | some c => exact ⟨hkeys, hsucc, hair, hdeal⟩
  | none =>
    have hzero : successCount store.crmActions CRMType.hubspot_contact = 0 := by
      rw [← hsnap]; exact successCount_zero_of_find_none hfind
    cases hname : snap.collected.name with
    | none => exact ⟨hkeys, hsucc, hair, hdeal⟩
    | some name =>
      cases hemail : snap.collected.email with
      | none => exact ⟨hkeys, hsucc, hair, hdeal⟩
      | some email =>
        cases hres : env.hubspotResult with
        | ok contactId =>
          exact leadComplete_ok_branch env.now env.now store k _ rfl rfl _ rfl
            hkeys hzero hair hdeal
        | error msg =>
          cases hf2 : snap.crmActions.find? (fun a =>
              a.type == CRMType.hubspot_contact && a.status == CRMStatus.pending) with
          | some failedAction =>
            exact leadComplete_failed_branch env.now env.now store k
              failedAction.idempotencyKey _ rfl rfl _ rfl hkeys hsucc hair hdeal
          | none =>
            exact leadComplete_pending_branch env.now store k _ rfl rfl
              hkeys hsucc hair hdeal

theorem leadRespond_crm_inv (env : Env) (snap store : Session) (k : Nat) (u : String)
    (hsnap : snap.crmActions = store.crmActions)
    (hkeys : keysBelow store.crmActions k)
    (hsucc : successCount store.crmActions CRMType.hubspot_contact ≤ 1)
    (hair : successCount store.crmActions CRMType.airtable_reservation = 0)
    (hdeal : successCount store.crmActions CRMType.hubspot_deal = 0) :
    keysBelow (LeadAgent.respond env snap store k u).1.crmActions
        (LeadAgent.respond env snap store k u).2.1 ∧
      successCount (LeadAgent.respond env snap store k u).1.crmActions
          CRMType.hubspot_contact ≤ 1 ∧
      successCount (LeadAgent.respond env snap store k u).1.crmActions
          CRMType.airtable_reservation = 0 ∧
      successCount (LeadAgent.respond env snap store k u).1.crmActions
          CRMType.hubspot_deal = 0 := by
  unfold LeadAgent.respond
  split
  · exact leadComplete_crm_inv env snap store k u hsnap hkeys hsucc hair hdeal
  · simp only [leadExtract_crm]
    exact ⟨hkeys, hsucc, hair, hdeal⟩

theorem bookingRespond_crm_unchanged (env : Env) (snap store : Session) (k : Nat)
    (u : String) (hsnap : snap.crmActions = store.crmActions)
    (hair : successCount store.crmActions CRMType.airtable_reservation = 0) :
    (BookingAgent.respond env snap store k u).1.crmActions = store.crmActions ∧
      (BookingAgent.respond env snap store k u).2.1 = k := by
  have hconf : BookingAgent.hasConfirmedReservation snap = false :=
    hasConfirmed_false_of_zero (by rw [hsnap]; exact hair)
  unfold BookingAgent.respond
  rw [hconf]
  simp only [Bool.and_false, Bool.false_eq_true, if_false]
  exact ⟨bookingExtract_crm env snap store u, trivial⟩

theorem dispatchAgent_crm_inv (env : Env) (snap store : Session) (k : Nat) (u : String)
    (hsnap : snap.crmActions = store.crmActions)
    (hkeys : keysBelow store.crmActions k)
    (hsucc : successCount store.crmActions CRMType.hubspot_contact ≤ 1)
    (hair : successCount store.crmActions CRMType.airtable_reservation = 0)
    (hdeal : successCount store.crmActions CRMType.hubspot_deal = 0) :
    keysBelow (dispatchAgent env snap store k u).store.crmActions
        (dispatchAgent env snap store k u).nextKey ∧
      successCount (dispatchAgent env snap store k u).store.crmActions
          CRMType.hubspot_contact ≤ 1 ∧
      successCount (dispatchAgent env snap store k u).store.crmActions
          CRMType.airtable_reservation = 0 ∧
      successCount (dispatchAgent env snap store k u).store.crmActions
          CRMType.hubspot_deal = 0 := by
  unfold dispatchAgent
  cases hi : snap.currentIntent with
  | none => exact ⟨hkeys, hsucc, hair, hdeal⟩
  | some i =>
    cases i with
    | lead => exact leadRespond_crm_inv env snap store k u hsnap hkeys hsucc hair hdeal
    | booking =>
      obtain ⟨h1, h2⟩ := bookingRespond_crm_unchanged env snap store k u hsnap hair
      cases hb : (BookingAgent.respond env snap store k u).2.2 with
      | ok r => simp only [hb, h1, h2]; exact ⟨hkeys, hsucc, hair, hdeal⟩
      | error e => simp only [hb, h1, h2]; exact ⟨hkeys, hsucc, hair, hdeal⟩
    | menu =>
      simp only [menuRespond_crm]
      exact ⟨hkeys, hsucc, hair, hdeal⟩

theorem processMessage_crm_inv (env : Env) (f : Faults) (snap store : Session) (k : Nat)
    (u : String) (hsnap : snap.crmActions = store.crmActions)
    (hkeys : keysBelow store.crmActions k)
    (hsucc : successCount store.crmActions CRMType.hubspot_contact ≤ 1)
    (hair : successCount store.crmActions CRMType.airtable_reservation = 0)
    (hdeal : successCount store.crmActions CRMType.hubspot_deal = 0) :
    keysBelow (processMessage env f snap store k u).store.crmActions
        (processMessage env f snap store k u).nextKey ∧
      successCount (processMessage env f snap store k u).store.crmActions
          CRMType.hubspot_contact ≤ 1 ∧
      successCount (processMessage env f snap store k u).store.crmActions
          CRMType.airtable_reservation = 0 ∧
      successCount (processMessage env f snap store k u).store.crmActions
          CRMType.hubspot_deal = 0 := by
  unfold processMessage
  split
  · exact ⟨hkeys, hsucc, hair, hdeal⟩
  · split
    · exact ⟨hkeys, hsucc, hair, hdeal⟩
    · split
      · exact ⟨hkeys, hsucc, hair, hdeal⟩
      · cases hi : snap.currentIntent with
        | some i =>
          simp only [hi]
          split
          · exact ⟨hkeys, hsucc, hair, hdeal⟩
          · exact dispatchAgent_crm_inv env snap store k u hsnap hkeys hsucc hair hdeal
        | none =>
          simp only [hi]
          split
          · exact ⟨hkeys, hsucc, hair, hdeal⟩
          · exact dispatchAgent_crm_inv env _ store k u hsnap hkeys hsucc hair hdeal

theorem asrFinalTurn_inv (env : Env) (w : World) (text : String) (h : WorldInv w) :
    WorldInv (asrFinalTurn env w text).1 := by
  obtain ⟨hkeys, hsucc, hair, hdeal⟩ := h
  have hmain := processMessage_crm_inv env noFaults w.store
    (SessionStore.addTranscript env.now w.store
      { who := .caller, text := text, timestamp := env.now }) w.nextKey text
    (by rw [addTranscript_crmActions])
    (by rw [addTranscript_crmActions]; exact hkeys)
    (by rw [addTranscript_crmActions]; exact hsucc)
    (by rw [addTranscript_crmActions]; exact hair)
    (by rw [addTranscript_crmActions]; exact hdeal)
  unfold asrFinalTurn WorldInv
  simp only [addTranscript_crmActions]
  exact hmain

theorem runTurnsAux_inv (turns : List (Env × String)) :
    ∀ w : World, WorldInv w →
      WorldInv (turns.foldl (fun w t => (asrFinalTurn t.1 w t.2).1) w) := by
  induction turns with
  | nil => exact fun w h => h
  | cons t ts ih =>
    intro w h
    exact ih _ (asrFinalTurn_inv t.1 w t.2 h)

theorem runTurns_inv (callId greeting : String) (turns : List (Env × String)) :
    WorldInv (runTurns callId greeting turns) := by
  refine runTurnsAux_inv turns _ ⟨?_, ?_, ?_, ?_⟩
  · exact fun a ha => absurd ha (List.not_mem_nil a)
  · exact Nat.zero_le 1
  · rfl
  · rfl

/-- C1: over any conversation — `call.started` followed by any sequence of
`asr.final` caller turns, each with an arbitrary collaborator environment —
at most one CRM action per action type in the session's `crmActions` ever
has status `success`; in particular at most one `airtable_reservation`
action is successful over any sequence of booking turns. The contact path
is guarded by the existing-success lookup in `handleCompleteLead`, and the
reservation path is guarded by `hasConfirmedReservation` in
`BookingAgent.respond`. -/
theorem crm_success_at_most_one (callId greeting : String)
    (turns : List (Env × String)) (ty : CRMType) :
    successCount (runTurns callId greeting turns).store.crmActions ty ≤ 1 := by
  obtain ⟨-, hsucc, hair, hdeal⟩ := runTurns_inv callId greeting turns
  cases ty with
  | hubspot_contact => exact hsucc
  | airtable_reservation => omega
  | hubspot_deal => omega

/-! ## C5 — the router boundary never propagates an exception -/

theorem str_append_ne_left (a b : String) (h : a.data ≠ []) : a ++ b ≠ "" := by
  intro hc
  have hd : a.data ++ b.data = ([] : List Char) := by
    rw [← String.data_append, hc]
  exact h (List.append_eq_nil.mp hd).1

theorem str_append_ne_right (a b : String) (h : b.data ≠ []) : a ++ b ≠ "" := by
  intro hc
  have hd : a.data ++ b.data = ([] : List Char) := by
    rw [← String.data_append, hc]
  exact h (List.append_eq_nil.mp hd).2

theorem runOverrides_some_ne (l : List PolicyOverride) (s : Session) (c raw : String) :
    ∀ r, runOverrides l s c raw = some r → r ≠ "" := by
  induction l with
  | nil => intro r h; exact absurd h (by simp [runOverrides])
  | cons o os ih =>
    intro r h
    unfold runOverrides at h
    split at h
    · split at h
      · split at h
        · rename_i hresp
          cases h
          exact hresp
        · exact ih r h
      · exact ih r h
      · exact ih r h
    · exact ih r h

theorem checkPolicyOverrides_some_ne (s : Session) (u r : String)
    (h : checkPolicyOverrides s u = some r) : r ≠ "" :=
  runOverrides_some_ne _ s _ u r h

theorem leadGenerate_ne (snap : Session) (u : String) :
    LeadAgent.generateResponse snap u ≠ "" := by
  simp only [LeadAgent.generateResponse, LeadAgent.generateConfirmationResponse]
  repeat' split
  all_goals first
    | decide
    | (apply str_append_ne_right; decide)

theorem leadFinal_ne (snap : Session) : LeadAgent.generateFinalResponse snap ≠ "" :=
  str_append_ne_right _ _ (by decide)

theorem leadComplete_resp_ne (env : Env) (snap store : Session) (k : Nat) (u : String) :
    (LeadAgent.handleCompleteLead env snap store k u).2.2 ≠ "" := by
  have hr : (LeadAgent.handleCompleteLead env snap store k u).2.2
      = if isNewRequest u then "Absolutely! What else can I help you with?"
        else LeadAgent.generateFinalResponse snap := rfl
  rw [hr]
  split
  · decide
  · exact leadFinal_ne snap

theorem leadRespond_resp_ne (env : Env) (snap store : Session) (k : Nat) (u : String) :
    (LeadAgent.respond env snap store k u).2.2 ≠ "" := by
  unfold LeadAgent.respond
  split
  · exact leadComplete_resp_ne env snap store k u
  · exact leadGenerate_ne snap u

theorem menuResp_ne (env : Env) (snap store : Session) (u : String) :
    (MenuAgent.respond env snap store u).2 ≠ "" := by
  have hr : (MenuAgent.respond env snap store u).2
      = MenuAgent.generateMenuResponse env snap (MenuAgent.analyzeMenuRequest env u) := rfl
  rw [hr]
  simp only [MenuAgent.generateMenuResponse, MenuAgent.handleSpecialsRequest,
    MenuAgent.handleCategoryRequest, MenuAgent.handlePricingRequest,
    MenuAgent.handleDietaryRequest, MenuAgent.handleRepeatRequest,
    MenuAgent.handleOverviewRequest]
  repeat' split
  all_goals first
    | decide
    | (apply str_append_ne_right; decide)
    | (apply str_append_ne_left; decide)

theorem except_bind_ok {α β : Type} (x : Except Unit α) (f : α → Except Unit β) (b : β)
    (h : (x >>= f) = .ok b) : ∃ a, x = .ok a ∧ f a = .ok b := by
  cases x with
  | ok a => exact ⟨a, rfl, h⟩
  | error e => exact Except.noConfusion h

theorem formatAvailability_ok_ne (env : Env) (date : String) (n : Nat) (r : String)
    (h : formatAvailabilityForVoice env date n = .ok r) : r ≠ "" := by
  simp only [formatAvailabilityForVoice] at h
  repeat' split at h
  all_goals first
    | (cases h; first
        | decide
        | (apply str_append_ne_right; decide))
    | (obtain ⟨a, hx, hf⟩ := except_bind_ok _ _ _ h
       first
         | (cases hf; apply str_append_ne_right; decide)
         | (obtain ⟨b, hy, hg⟩ := except_bind_ok _ _ _ hf
            cases hg
            apply str_append_ne_right; decide))

theorem checkAvail_ok_ne (env : Env) (snap : Session) (r : String)
    (h : BookingAgent.checkAvailabilityAndRespond env snap = .ok r) : r ≠ "" := by
  simp only [BookingAgent.checkAvailabilityAndRespond] at h
  repeat' split at h
  all_goals first
    | (cases h; decide)
    | exact formatAvailability_ok_ne env _ _ r h
    | (obtain ⟨a, hx, hf⟩ := except_bind_ok _ _ _ h
       cases hf
       apply str_append_ne_right; decide)

theorem bookingConfirm_ok_ne (env : Env) (snap : Session) (r : String)
    (h : BookingAgent.generateConfirmationResponse env snap = .ok r) : r ≠ "" := by
  simp only [BookingAgent.generateConfirmationResponse] at h
  repeat' split at h
  all_goals first
    | (cases h; decide)
    | (obtain ⟨a, hx, hf⟩ := except_bind_ok _ _ _ h
       cases hf
       apply str_append_ne_right; decide)

theorem bookingGenerate_ok_ne (env : Env) (snap : Session) (u : String) (r : String)
    (h : BookingAgent.generateResponse env snap u = .ok r) : r ≠ "" := by
  simp only [BookingAgent.generateResponse] at h
  repeat' split at h
  all_goals first
    | (cases h; first
        | decide
        | (apply str_append_ne_right; decide))
    | exact checkAvail_ok_ne env snap r h
    | exact bookingConfirm_ok_ne env snap r h

theorem bookingSuccess_ok_ne (env : Env) (snap : Session) (r : String)
    (h : BookingAgent.generateSuccessResponse env snap = .ok r) : r ≠ "" := by
  simp only [BookingAgent.generateSuccessResponse] at h
  obtain ⟨a, hx, hf⟩ := except_bind_ok _ _ _ h
  cases hf
  apply str_append_ne_right; decide

theorem finalize_resp_ne (env : Env) (snap store : Session) (k : Nat) :
    (BookingAgent.finalizeReservation env snap store k).2.2 ≠ "" := by
  simp only [BookingAgent.finalizeReservation]
  repeat' split
  all_goals first
    | exact ne_of_beq_false rfl
    | exact bookingSuccess_ok_ne env snap _ (by assumption)

theorem bookingComplete_resp_ne (env : Env) (snap store : Session) (k : Nat) (u : String) :
    (BookingAgent.handleCompleteBooking env snap store k u).2.2 ≠ "" := by
  unfold BookingAgent.handleCompleteBooking
  repeat' split
  all_goals first
    | exact ne_of_beq_false rfl
    | exact finalize_resp_ne env snap store k

theorem bookingRespond_ok_ne (env : Env) (snap store : Session) (k : Nat) (u : String)
    (r : String) (h : (BookingAgent.respond env snap store k u).2.2 = .ok r) : r ≠ "" := by
  unfold BookingAgent.respond at h
  split at h
  · injection h with h2
    rw [← h2]
    exact bookingComplete_resp_ne env snap store k u
  · exact bookingGenerate_ok_ne env snap u r h

theorem dispatch_resp_ne (env : Env) (snap store : Session) (k : Nat) (u : String) :
    (dispatchAgent env snap store k u).response ≠ "" := by
  unfold dispatchAgent
  cases hi : snap.currentIntent with
  | none => exact ne_of_beq_false rfl
  | some i =>
    cases i with
    | lead => exact leadRespond_resp_ne env snap store k u
    | booking =>
      cases hb : (BookingAgent.respond env snap store k u).2.2 with
      | ok r =>
        simp only [hb]
        exact bookingRespond_ok_ne env snap store k u r hb
      | error e =>
        simp only [hb]
        exact ne_of_beq_false rfl
    | menu => exact menuResp_ne env snap store u

/-- C5: the router boundary is total and exception-safe. For every
session, store state, key, input and fault injection: (1) `processMessage`
returns a non-empty response; (2) an exception thrown during override
checking is caught and answered with the fixed generic apology; (3) same
for an exception thrown by intent detection; (4) same for an exception
thrown at agent dispatch; (5) an exception escaping the booking agent's
response tree (its `Except.error`) is caught at the same boundary and
answered with the same apology. -/
theorem processMessage_never_raises (env : Env) (f : Faults) (snap store : Session)
    (k : Nat) (input : String) :
    (processMessage env f snap store k input).response ≠ "" ∧
      (f.overridesThrow = true →
        (processMessage env f snap store k input).response = apologyResponse) ∧
      (f.overridesThrow = false → checkPolicyOverrides snap input = none →
        f.detectThrow = true →
        (processMessage env f snap store k input).response = apologyResponse) ∧
      (f.overridesThrow = false → checkPolicyOverrides snap input = none →
        f.detectThrow = false → f.agentThrow = true →
        (processMessage env f snap store k input).response = apologyResponse) ∧
      (∀ e : Unit, snap.currentIntent = some Intent.booking → f = noFaults →
        checkPolicyOverrides snap input = none →
        (BookingAgent.respond env snap store k input).2.2 = Except.error e →
        (processMessage env f snap store k input).response = apologyResponse) := by
  refine ⟨?_, ?_, ?_, ?_, ?_⟩
  · unfold processMessage
    split
    · exact ne_of_beq_false rfl
    · cases hov : checkPolicyOverrides snap input with
      | some r =>
        simp only [hov]
        exact checkPolicyOverrides_some_ne snap input _ hov
      | none =>
        simp only [hov]
        split
        · exact ne_of_beq_false rfl
        · cases hi : snap.currentIntent with
          | some i =>
            simp only [hi]
            split
            · exact ne_of_beq_false rfl
            · exact dispatch_resp_ne env snap store k input
          | none =>
            simp only [hi]
            split
            · exact ne_of_beq_false rfl
            · exact dispatch_resp_ne env _ store k input
  · intro h
    unfold processMessage
    rw [h]
    rfl
  · intro h1 h2 h3
    unfold processMessage
    rw [h1, h2, h3]
    rfl
  · intro h1 h2 h3 h4
    unfold processMessage
    rw [h1, h2, h3, h4]
    rfl
  · intro e hint hf hov hresp
    subst hf
    simp only [processMessage, noFaults, Bool.false_eq_true, if_false, hov, hint,
      dispatchAgent, hresp]

def c5Session : Session := { callId := "c5", createdAt := 0, lastActivity := 0 }

/-- Availability data whose single slot carries the colon-free time `"7"`,
so the booking response tree reaches `formatTimeTwelveHour "7"` and
throws. -/
def c5Env : Env :=
  { availability := fun d =>
      if d = "2026-01-05" then
        some { date := "2026-01-05", isOpen := true,
               slots := [{ time := "7", available := true, maxPartySize := 10,
                           remainingSlots := 3 }] }
      else none }

/-- A booking-intent session whose collected data drives the availability
check into the throwing time formatter. -/
def c5bSnap : Session :=
  { callId := "c5b", createdAt := 0, lastActivity := 0,
    currentIntent := some Intent.booking,
    collected := { partySize := some 4, dateTime := some "2026-01-05 7" },
    transcript := [{ who := Who.agent, text := "hi", timestamp := 0 },
                   { who := Who.caller, text := "book", timestamp := 0 }] }

theorem processMessage_never_raises_witness :
    ((processMessage defaultEnv { overridesThrow := true } c5Session c5Session 0
        "zzz").response = apologyResponse) ∧
      ((processMessage defaultEnv { detectThrow := true } c5Session c5Session 0
        "zzz").response = apologyResponse) ∧
      ((processMessage defaultEnv { agentThrow := true } c5Session c5Session 0
        "zzz").response = apologyResponse) ∧
      ((processMessage c5Env noFaults c5bSnap c5bSnap 0 "zzz").response
        = apologyResponse) ∧
      (processMessage defaultEnv noFaults c5Session c5Session 0 "").response ≠ "" :=
  ⟨(processMessage_never_raises defaultEnv { overridesThrow := true } c5Session c5Session 0
      "zzz").2.1 rfl,
   (processMessage_never_raises defaultEnv { detectThrow := true } c5Session c5Session 0
      "zzz").2.2.1 rfl (by decide) rfl,
   (processMessage_never_raises defaultEnv { agentThrow := true } c5Session c5Session 0
      "zzz").2.2.2.1 rfl (by decide) rfl rfl,
   (processMessage_never_raises c5Env noFaults c5bSnap c5bSnap 0
      "zzz").2.2.2.2 () rfl rfl (by decide) rfl,
   (processMessage_never_raises defaultEnv noFaults c5Session c5Session 0 "").1⟩
